import Mathlib

/-!
Shallow embedding of the XRT command-queue coordination layer:
the XMA plugin submission/completion machinery
(src/xma/src/xmaplugin/xmaplugin.cpp), the XGQ VMR submission ring
producer (src/runtime_src/core/pcie/linux/device_linux.h), and the
embedded ERT control-command dispatcher
(src/runtime_src/core/edge/drm/zocl/zocl_ctrl_ert.c).

Machine integers are modelled as Nat with explicit reduction mod 2^32
where the source relies on uint32_t overflow.  Nondeterministic inputs
of the source (random draws, concurrent completions arriving from the
completion thread, the results of external calls such as
check_all_execbo or xrt_run.start) are passed in as explicit oracle
parameters.  Fallible or possibly-blocking code returns Option.
-/

namespace XRT

/-- 2^32, the modulus of the uint32_t counters used in the source. -/
def U32 : ℕ := 4294967296

/-- Return code XMA_SUCCESS (value 0 from xmaerror.h; the header is not
in the sources, but only the distinctness of the two codes matters). -/
def XMA_SUCCESS : Int := 0

/-- Return code XMA_ERROR (value -1 from xmaerror.h). -/
def XMA_ERROR : Int := -1

/-- Maximum register-map payload, 4032 bytes; the numeric value is stated
in the source comment at xmaplugin.cpp lines 403 and 611. -/
def MAX_KERNEL_REGMAP_SIZE : Int := 4032

/-! ## Primary/secondary command-id generation

Embedding of the id-generation loop shared verbatim by
xma_plg_schedule_work_item (xmaplugin.cpp:513-542) and
xma_plg_schedule_cu_cmd (xmaplugin.cpp:721-750). -/

/-- The per-device id counters cu_cmd_id1 and cu_cmd_id2 of XmaHwDevice
(both uint32_t). -/
structure DevIds where
  id1 : ℕ
  id2 : ℕ
  deriving Repr, DecidableEq

/-- One iteration of the id-generation loop body, before the emplace
attempt (xmaplugin.cpp:515-528 and 723-736): increment cu_cmd_id1; on
wraparound to 0, set it to 1 and reseed the mt19937 generator, then draw
a fresh cu_cmd_id2; otherwise increment cu_cmd_id2.  The value produced
by rnd_dis on the freshly seeded generator is nondeterministic and is
passed in as the oracle freshDraw.  Result: (new counters, candidate id
tmp_int1, whether the generator was reseeded). -/
def idGenStep (freshDraw : ℕ) (d : DevIds) : DevIds × ℕ × Bool :=
  let tmp1 := (d.id1 + 1) % U32
  if tmp1 = 0 then
    (⟨1, freshDraw % U32⟩, 1, true)
  else
    (⟨tmp1, (d.id2 + 1) % U32⟩, tmp1, false)

/-- Registry-facing state touched by the id-generation loop: the device
counters, the key set of the CU_cmds registry (std::map keyed by
cmd_id1; the mapped XmaCUCmdObjPrivate values are bookkeeping not needed
by any theorem here), and num_cu_cmds. -/
structure GenState where
  dev : DevIds
  cmds : Finset ℕ
  numCuCmds : ℕ
  deriving DecidableEq

/-- The while(!found) id-generation loop (xmaplugin.cpp:514-542,
722-750): step the counters, then emplace the candidate into CU_cmds;
on collision (emplace returns an existing element) retry with freshly
stepped counters.  The source loop is unbounded; fuel makes the
recursion structural, and none models non-termination (a registry
holding every candidate).  On success returns (cmd_id1, cmd_id2,
new state). -/
def idGenLoop (freshDraw : ℕ → ℕ) : ℕ → GenState → Option (ℕ × ℕ × GenState)
  | 0, _ => none
  | fuel + 1, s =>
    let (d, cand, _) := idGenStep (freshDraw fuel) s.dev
    if cand ∈ s.cmds then
      idGenLoop freshDraw fuel { s with dev := d }
    else
      some (cand, d.id2, ⟨d, insert cand s.cmds, s.numCuCmds + 1⟩)

/-- A sequence of successful submissions on one session: before each
submission an arbitrary set of finished commands is removed from the
registry by the completion path, then the id-generation loop runs.
Returns the list of primary ids handed out, in order. -/
def runSubmits (freshDraw : ℕ → ℕ) (fuel : ℕ) :
    List (Finset ℕ) → GenState → Option (List ℕ × GenState)
  | [], s => some ([], s)
  | rem :: rest, s =>
    let s1 : GenState := { s with cmds := s.cmds \ rem, numCuCmds := s.numCuCmds - rem.card }
    match idGenLoop freshDraw fuel s1 with
    | none => none
    | some (id, _, s2) =>
      match runSubmits freshDraw fuel rest s2 with
      | none => none
      | some (ids, s3) => some (id :: ids, s3)

/-! ## ExecBO slot pool

Embedding of xma_plg_execbo_avail_get (xmaplugin.cpp:315-338) and
xma_plg_execbo_avail_get2 (xmaplugin.cpp:340-364), and of the
acquisition retry loop of the two schedule functions
(xmaplugin.cpp:436-463, 644-671). -/

/-- The slots of XmaHwSessionPrivate relevant here: kernel_execbos is a
fixed array whose entries carry an in_use flag and the ids of the
command occupying them; num_execbo_allocated is the list length. -/
structure PoolSlot where
  in_use : Bool
  cu_cmd_id1 : ℕ
  cu_cmd_id2 : ℕ
  deriving Repr, DecidableEq, Inhabited

/-- Pool state: the slot array together with the execbo_lru free-list
cache and the execbo_to_check list maintained by avail_get. -/
structure PoolState where
  execbos : List PoolSlot
  lru : List ℕ
  toCheck : List ℕ
  deriving DecidableEq

/-- Embedding of xma_plg_execbo_avail_get (xmaplugin.cpp:315-338): if
the execbo_lru cache is empty, rebuild it by scanning the slot array in
index order and appending every free index; then, if the cache is
nonempty, take the index at its back, pop it, mark that slot in use,
append it to execbo_to_check and return it; otherwise return none
(the source returns -1). -/
def xma_plg_execbo_avail_get (s : PoolState) : Option ℕ × PoolState :=
  let lru1 := if s.lru = [] then
      (List.range s.execbos.length).filter
        (fun i => !((s.execbos.getD i default).in_use))
    else s.lru
  match lru1.getLast? with
  | some val =>
    (some val,
      ⟨s.execbos.set val { s.execbos.getD val default with in_use := true },
       lru1.dropLast, s.toCheck ++ [val]⟩)
  | none => (none, { s with lru := lru1 })

/-- The scan loop of xma_plg_execbo_avail_get2 (xmaplugin.cpp:350-360),
with the found flag carried exactly as in the source: walking the slot
array from position i, if the current slot is free the flag is raised;
if the flag is raised the loop stops at the current index.  Returns the
chosen index, if any. -/
def availGet2Scan (found : Bool) (i : ℕ) : List PoolSlot → Option ℕ
  | [] => none
  | sl :: rest =>
    let found1 := if !sl.in_use then true else found
    if found1 then some i else availGet2Scan found1 (i + 1) rest

/-- Embedding of xma_plg_execbo_avail_get2 (xmaplugin.cpp:340-364): run
the scan from index 0 with the found flag down; on success mark the
chosen slot in use.  The execbo_lru and execbo_to_check lists are not
touched by this variant. -/
def xma_plg_execbo_avail_get2 (s : PoolState) : Option ℕ × PoolState :=
  match availGet2Scan false 0 s.execbos with
  | some i =>
    (some i, { s with execbos := s.execbos.set i { s.execbos.getD i default with in_use := true } })
  | none => (none, s)

/-- Dispatch between the two acquisition policies as the schedule
functions do (xmaplugin.cpp:444-448, 652-656): avail_get2 when
cpu_mode is XMA_CPU_MODE2, avail_get otherwise. -/
def availDispatch (cpuMode2 : Bool) (s : PoolState) : Option ℕ × PoolState :=
  if cpuMode2 then xma_plg_execbo_avail_get2 s else xma_plg_execbo_avail_get s

/-- The completion path (outside these sources) releases a slot by
clearing its in-use flag; spec 4.1: release simply clears in-use.  This
applies the slot indices released by other threads while the submitter
waits on execbo_is_free. -/
def applyReleases (rel : List ℕ) (s : PoolState) : PoolState :=
  let ex := rel.foldl (fun l i => l.set i { l.getD i default with in_use := false }) s.execbos
  { s with execbos := ex }

/-- The acquisition retry loop of the schedule functions
(xmaplugin.cpp:436-463 and 644-671): attempt an acquisition; on success
stop; on failure, if itr exceeds 15 give up (the source then returns the
error command object), otherwise wait on execbo_is_free (during which
the oracle releases (releases itr) may free slots) and retry with itr
incremented.  The source counts itr upward and stops retrying after a
failure with itr > 15; here the remaining retry budget rem = 16 - itr
drives the structural recursion and itr is carried for the release
oracle, so rem = 0 is exactly the itr = 16 give-up point.  The third
result component counts the acquisition attempts performed. -/
def acquireLoopAux (cpuMode2 : Bool) (releases : ℕ → List ℕ) :
    ℕ → ℕ → PoolState → Option ℕ × PoolState × ℕ
  | 0, _, s =>
    let (r, s1) := availDispatch cpuMode2 s
    match r with
    | some bo => (some bo, s1, 1)
    | none => (none, s1, 1)
  | rem + 1, itr, s =>
    let (r, s1) := availDispatch cpuMode2 s
    match r with
    | some bo => (some bo, s1, 1)
    | none =>
      let s2 := applyReleases (releases itr) s1
      let (r2, s3, n) := acquireLoopAux cpuMode2 releases rem (itr + 1) s2
      (r2, s3, n + 1)

/-- The acquisition retry loop entered at itr = 0, hence with a budget
of 16 retries (17 attempts in all). -/
def acquireLoop (cpuMode2 : Bool) (releases : ℕ → List ℕ) (s : PoolState) :
    Option ℕ × PoolState × ℕ :=
  acquireLoopAux cpuMode2 releases 16 0 s

/-! ## Command objects and the two schedule functions -/

/-- XmaCUCmdObj.  In the source cmd_id1 (uint32_t) and return_code
(int32_t) share storage (see the comment at xmaplugin.cpp:1153, "As
return_code is now shared with cmd_id1"); the shared 32-bit pattern is
the field id_rc.  do_not_use1 holds either the session signature
pointer (modelled by its numeric value) or nullptr (none).  cmd_state
is the XmaCmdState value as an integer (the source static_asserts it
fits an int32_t). -/
structure CmdObj where
  id_rc : ℕ
  cmd_id2 : ℕ
  cmd_finished : Bool
  cmd_state : ℕ
  cu_index : Int
  do_not_use1 : Option ℕ
  deriving Repr, DecidableEq, Inhabited

/-- The cmd_id1 view of the shared field. -/
def CmdObj.cmd_id1 (c : CmdObj) : ℕ := c.id_rc

/-- The return_code view of the shared field: the int32_t
reinterpretation of the stored 32-bit pattern. -/
def CmdObj.return_code (c : CmdObj) : Int :=
  if c.id_rc < 2147483648 then (c.id_rc : Int) else (c.id_rc : Int) - (U32 : Int)

/-- cmd_obj_default (xmaplugin.cpp:66-72): reset cmd_id1, cmd_id2,
cmd_finished, cu_index and do_not_use1 of a stack-allocated object.
cmd_state is not assigned by the source, so it keeps whatever the
uninitialized stack object held; the model therefore takes that object
as input. -/
def cmd_obj_default (c : CmdObj) : CmdObj :=
  { c with id_rc := 0, cmd_id2 := 0, cmd_finished := false, cu_index := -1,
           do_not_use1 := none }

/-- Arguments and session-derived predicates of a schedule call.
sessionOk is the result of check_xma_session; sessionTypeAdmin is
session_type >= XMA_ADMIN; devNull is device == nullptr; regmapNull is
regmap == nullptr; regmapSize is the int32_t regmap_size;
kernelRegmapSize is kernel_info->regmap_size; kernelCuIndex the cu_index
stored in the chosen kernel; signature the session_signature value. -/
structure SchedArgs where
  sessionOk : Bool
  sessionTypeAdmin : Bool
  devNull : Bool
  regmapNull : Bool
  regmapSize : Int
  kernelRegmapSize : Int
  kernelCuIndex : Int
  signature : ℕ

/-- Environment oracles of a schedule call: kds_old and cpu_mode from
the singleton, the slots freed by other threads during each
execbo_is_free wait, whether xrt_run.start() succeeds, and the random
draws of a reseed. -/
structure SchedEnv where
  kdsOld : Bool
  cpuMode2 : Bool
  releases : ℕ → List ℕ
  startOk : Bool
  freshDraw : ℕ → ℕ

/-- Session-private state mutated by a schedule call. -/
structure SessState where
  pool : PoolState
  gen : GenState

/-- Outcome of a schedule call: the returned XmaCUCmdObj, the value
written through the return_code out-parameter, the final state, and the
number of execbo acquisition attempts performed (instrumentation). -/
structure SchedResult where
  obj : CmdObj
  rc : Int
  state : SessState
  attempts : ℕ

/-- The part of the two schedule functions after argument validation
(xmaplugin.cpp:424-548 and 632-757): wait until no command is
outstanding (KDS2.0 single-outstanding discipline; with no other thread
draining, a nonzero num_cu_cmds with new KDS blocks forever, modelled as
none); run the acquisition retry loop, returning the error object if it
gives up; copy the regmap (no modelled effect); re-check the
single-outstanding discipline; start the kernel unless an old-KDS
outstanding command suppresses the start, returning the error object if
the start throws; finally run the id-generation loop, populate the
command object and the chosen slot, and return success. -/
def scheduleCore (args : SchedArgs) (env : SchedEnv) (fuel : ℕ)
    (uninit : CmdObj) (s : SessState) : Option SchedResult :=
  if s.gen.numCuCmds ≠ 0 ∧ ¬env.kdsOld then none
  else
    match acquireLoop env.cpuMode2 env.releases s.pool with
    | (none, pool1, att) =>
      some ⟨cmd_obj_default uninit, XMA_ERROR, ⟨pool1, s.gen⟩, att⟩
    | (some bo, pool1, att) =>
      if s.gen.numCuCmds ≠ 0 ∧ ¬env.kdsOld then
        some ⟨cmd_obj_default uninit, XMA_ERROR, ⟨pool1, s.gen⟩, att⟩
      else if s.gen.numCuCmds = 0 ∧ ¬env.startOk then
        some ⟨cmd_obj_default uninit, XMA_ERROR, ⟨pool1, s.gen⟩, att⟩
      else
        match idGenLoop env.freshDraw fuel s.gen with
        | none => none
        | some (id1, id2, gen1) =>
          let obj := { cmd_obj_default uninit with
                        cu_index := args.kernelCuIndex,
                        do_not_use1 := some args.signature,
                        id_rc := id1, cmd_id2 := id2 }
          let slot := pool1.execbos.getD bo default
          let pool2 := { pool1 with
            execbos := pool1.execbos.set bo { slot with cu_cmd_id1 := id1, cu_cmd_id2 := id2 } }
          some ⟨obj, XMA_SUCCESS, ⟨pool2, gen1⟩, att⟩

/-- Embedding of xma_plg_schedule_work_item (xmaplugin.cpp:366-549):
session check, session-type check (admin sessions rejected), device
check, then the regmap validation chain of lines 393-422 (null pointer,
non-positive size, size above MAX_KERNEL_REGMAP_SIZE, size with nonzero
low two bits; the kernel regmap_size excess check only logs, per the
Sarab TODO comment), then the common core. -/
def xma_plg_schedule_work_item (args : SchedArgs) (env : SchedEnv) (fuel : ℕ)
    (uninit : CmdObj) (s : SessState) : Option SchedResult :=
  if ¬args.sessionOk then some ⟨cmd_obj_default uninit, XMA_ERROR, s, 0⟩
  else if args.sessionTypeAdmin then some ⟨cmd_obj_default uninit, XMA_ERROR, s, 0⟩
  else if args.devNull then some ⟨cmd_obj_default uninit, XMA_ERROR, s, 0⟩
  else if args.regmapNull then some ⟨cmd_obj_default uninit, XMA_ERROR, s, 0⟩
  else if args.regmapSize ≤ 0 then some ⟨cmd_obj_default uninit, XMA_ERROR, s, 0⟩
  else if args.regmapSize > MAX_KERNEL_REGMAP_SIZE then
    some ⟨cmd_obj_default uninit, XMA_ERROR, s, 0⟩
  else if args.regmapSize % 4 ≠ 0 then some ⟨cmd_obj_default uninit, XMA_ERROR, s, 0⟩
  else scheduleCore args env fuel uninit s

/-- Additional inputs of xma_plg_schedule_cu_cmd: the explicit cu_index
argument, the device kernel count, whether the chosen kernel still needs
a context opened, and whether open_context succeeds. -/
structure CuCmdArgs where
  cuIndex : Int
  numKernels : ℕ
  needCtx : Bool
  ctxOk : Bool

/-- Embedding of xma_plg_schedule_cu_cmd (xmaplugin.cpp:551-757):
session check, device check, then for admin sessions the cu_index
bounds check of line 577 and the open_context attempt of lines 584-597
(ordinary sessions ignore cu_index); then the same regmap validation
chain (lines 601-630) and the common core. -/
def xma_plg_schedule_cu_cmd (args : SchedArgs) (extra : CuCmdArgs)
    (env : SchedEnv) (fuel : ℕ) (uninit : CmdObj) (s : SessState) :
    Option SchedResult :=
  if ¬args.sessionOk then some ⟨cmd_obj_default uninit, XMA_ERROR, s, 0⟩
  else if args.devNull then some ⟨cmd_obj_default uninit, XMA_ERROR, s, 0⟩
  else if args.sessionTypeAdmin ∧
      (extra.cuIndex < 0 ∨ extra.cuIndex > (extra.numKernels : Int)) then
    some ⟨cmd_obj_default uninit, XMA_ERROR, s, 0⟩
  else if args.sessionTypeAdmin ∧ extra.needCtx ∧ ¬extra.ctxOk then
    some ⟨cmd_obj_default uninit, XMA_ERROR, s, 0⟩
  else if args.regmapNull then some ⟨cmd_obj_default uninit, XMA_ERROR, s, 0⟩
  else if args.regmapSize ≤ 0 then some ⟨cmd_obj_default uninit, XMA_ERROR, s, 0⟩
  else if args.regmapSize > MAX_KERNEL_REGMAP_SIZE then
    some ⟨cmd_obj_default uninit, XMA_ERROR, s, 0⟩
  else if args.regmapSize % 4 ≠ 0 then some ⟨cmd_obj_default uninit, XMA_ERROR, s, 0⟩
  else scheduleCore args env fuel uninit s

/-! ## Return-code lookup (xma_plg_work_item_return_code) -/

/-- XmaCmdState value xma_cmd_state::completed; the enum lives in a
header outside the sources, its numeric value is immaterial to the
theorems. -/
def xma_cmd_state_completed : ℕ := 1

/-- An entry of the CU_error_cmds map: the recorded return code (stored
as the 32-bit pattern that the source writes into the shared
cmd_id1/return_code field) and the recorded error state. -/
structure ErrEntry where
  return_code : ℕ
  cmd_state : ℕ
  deriving Repr, DecidableEq

/-- Session state read by xma_plg_work_item_return_code: the CU_cmds key
set, the CU_error_cmds map (modelled as a lookup function with a key
set), the session signature, the session kernel cu_index and whether the
session is an admin session. -/
structure RetSess where
  cmds : Finset ℕ
  errKeys : Finset ℕ
  errOf : ℕ → ErrEntry
  signature : ℕ
  kernelCuIndex : Int
  isAdmin : Bool

/-- The per-element body of the loop at xmaplugin.cpp:1133-1162.  Error
checks in source order: signature mismatch, cu_index mismatch for
non-admin sessions, zero cmd_id1 or sentinel cu_index, command still
present in CU_cmds.  Then the handle is marked finished and completed,
its signature pointer cleared, and if cmd_id1 is in CU_error_cmds the
recorded return code and state are copied in and the error counted. -/
def retCodeStep (sess : RetSess) (cmd : CmdObj) : Option (CmdObj × ℕ) :=
  if cmd.do_not_use1 ≠ some sess.signature then none
  else if ¬sess.isAdmin ∧ cmd.cu_index ≠ sess.kernelCuIndex then none
  else if cmd.cmd_id1 = 0 ∨ cmd.cu_index = -1 then none
  else if cmd.cmd_id1 ∈ sess.cmds then none
  else
    let cmd1 := { cmd with
                  cmd_finished := true,
                  cmd_state := xma_cmd_state_completed,
                  do_not_use1 := none }
    if cmd.cmd_id1 ∈ sess.errKeys then
      let e := sess.errOf cmd.cmd_id1
      some ({ cmd1 with id_rc := e.return_code % U32, cmd_state := e.cmd_state }, 1)
    else
      some (cmd1, 0)

/-- Embedding of xma_plg_work_item_return_code (xmaplugin.cpp:1103-1168)
restricted to a valid session (the session and null/size checks of lines
1105-1129 precede the loop and touch nothing).  Walks the handle array;
an error on any element aborts the walk with XMA_ERROR (the elements
already processed stay mutated, as in the source); on success the error
count is written through num_cu_errors and XMA_SUCCESS returned. -/
def xma_plg_work_item_return_code (sess : RetSess) :
    List CmdObj → Option (List CmdObj × ℕ)
  | [] => some ([], 0)
  | cmd :: rest =>
    match retCodeStep sess cmd with
    | none => none
    | some (cmd1, n) =>
      match xma_plg_work_item_return_code sess rest with
      | none => none
      | some (rest1, m) => some (cmd1 :: rest1, n + m)

/-! ## Completion waiting (xma_plg_is_work_item_done)

Embedding of xma_plg_is_work_item_done (xmaplugin.cpp:861-1101).  The
session kernel_complete_count is incremented concurrently by the
completion path; each read of it is modelled by adding the oracle value
arrivals k (the completions that arrived since the previous read, k
counting reads) before returning the current value.  check_all_execbo
outcomes and try-lock (compare_exchange_weak) outcomes are oracle
streams as well. -/

/-- Oracle streams of one xma_plg_is_work_item_done call. -/
structure WDEnv where
  arrivals : ℕ → ℕ
  chkOk : ℕ → Bool
  lockOk : ℕ → Bool

/-- Mutable state of the call: the kernel_complete_count value c, the
next index into each oracle stream, and the number of decrements the
call has performed on kernel_complete_count (instrumentation). -/
structure WDState where
  c : ℕ
  rIdx : ℕ
  cIdx : ℕ
  lIdx : ℕ
  decs : ℕ
  deriving Repr, DecidableEq

/-- One read of kernel_complete_count: external arrivals land first,
then the value is read. -/
def wdRead (env : WDEnv) (s : WDState) : ℕ × WDState :=
  let c1 := s.c + env.arrivals s.rIdx
  (c1, { s with c := c1, rIdx := s.rIdx + 1 })

/-- The recurring pattern count = kernel_complete_count; if (count)
kernel_complete_count-- (xmaplugin.cpp:891-898 and its copies in every
wait loop): read, and if nonzero consume one completion.  Returns
whether a completion was consumed. -/
def wdTake (env : WDEnv) (s : WDState) : Bool × WDState :=
  let (cnt, s1) := wdRead env s
  if cnt = 0 then (false, s1)
  else (true, { s1 with c := s1.c - 1, decs := s1.decs + 1 })

/-- One check_all_execbo call outcome. -/
def wdChk (env : WDEnv) (s : WDState) : Bool × WDState :=
  (env.chkOk s.cIdx, { s with cIdx := s.cIdx + 1 })

/-- One single-attempt compare_exchange_weak try-lock outcome. -/
def wdLock (env : WDEnv) (s : WDState) : Bool × WDState :=
  (env.lockOk s.lIdx, { s with lIdx := s.lIdx + 1 })

/-- CPU mode 1 wait loop (xmaplugin.cpp:934-960): each iteration waits
on the condition variable with a 10 ms timeout, then reads the count and
consumes one completion on success; after iter1 iterations the call
gives up with XMA_ERROR.  The third component counts iterations. -/
def wdMode1 (env : WDEnv) : ℕ → WDState → Int × WDState × ℕ
  | 0, s => (XMA_ERROR, s, 0)
  | n + 1, s =>
    let (took, s1) := wdTake env s
    if took then (XMA_SUCCESS, s1, 1)
    else
      let (r, s2, k) := wdMode1 env n s1
      (r, s2, k + 1)

/-- CPU mode 2 wait loop (xmaplugin.cpp:962-1001): each iteration tries
the execbo lock once; when acquired it runs check_all_execbo, returning
XMA_ERROR on its failure; in either case it then reads the count,
consuming one completion on success, and otherwise waits 1 ms and
retries; iter1 here is already the tenfold value set at line 963. -/
def wdMode2 (env : WDEnv) : ℕ → WDState → Int × WDState × ℕ
  | 0, s => (XMA_ERROR, s, 0)
  | n + 1, s =>
    let (lk, s1) := wdLock env s
    let gate : Bool × WDState :=
      if lk then
        let (ok, s2) := wdChk env s1
        (ok, s2)
      else (true, s1)
    match gate with
    | (false, s2) => (XMA_ERROR, s2, 1)
    | (true, s2) =>
      let (took, s3) := wdTake env s2
      if took then (XMA_SUCCESS, s3, 1)
      else
        let (r, s4, k) := wdMode2 env n s3
        (r, s4, k + 1)

/-- CPU mode 3 wait loop (xmaplugin.cpp:1003-1038): each iteration spins
until the execbo lock is held (always acquired in this sequential
model), runs check_all_execbo, returning XMA_ERROR on failure, reads the
count, and on empty calls exec_wait and retries. -/
def wdMode3 (env : WDEnv) : ℕ → WDState → Int × WDState × ℕ
  | 0, s => (XMA_ERROR, s, 0)
  | n + 1, s =>
    let (ok, s1) := wdChk env s
    if ok then
      let (took, s2) := wdTake env s1
      if took then (XMA_SUCCESS, s2, 1)
      else
        let (r, s3, k) := wdMode3 env n s2
        (r, s3, k + 1)
    else (XMA_ERROR, s1, 1)

/-- CPU mode 4 wait loop (xmaplugin.cpp:1040-1100): while give_up is
below iter1, read the count (consuming on success); try the lock once
and, when acquired, run check_all_execbo (XMA_ERROR on failure) and read
the count again; for give_up above 10 call exec_wait and read a third
time, otherwise sleep 3 ms; then advance give_up.  The source loops on
give_up < iter1 with give_up counting up; here the remaining budget
rem = iter1 - g drives the structural recursion and g is carried for the
give_up > 10 test, so rem = 0 is exactly the give_up = iter1 exit. -/
def wdMode4 (env : WDEnv) : ℕ → ℕ → WDState → Int × WDState × ℕ
  | 0, _, s => (XMA_ERROR, s, 0)
  | rem + 1, g, s =>
    let (took, s1) := wdTake env s
    if took then (XMA_SUCCESS, s1, 1)
    else
      let (lk, s2) := wdLock env s1
      if lk then
        let (ok, s3) := wdChk env s2
        if ok then
          let (took2, s4) := wdTake env s3
          if took2 then (XMA_SUCCESS, s4, 1)
          else if g > 10 then
            let (took3, s5) := wdTake env s4
            if took3 then (XMA_SUCCESS, s5, 1)
            else
              let (r, s6, k) := wdMode4 env rem (g + 1) s5
              (r, s6, k + 1)
          else
            let (r, s6, k) := wdMode4 env rem (g + 1) s4
            (r, s6, k + 1)
        else (XMA_ERROR, s3, 1)
      else if g > 10 then
        let (took3, s5) := wdTake env s2
        if took3 then (XMA_SUCCESS, s5, 1)
        else
          let (r, s6, k) := wdMode4 env rem (g + 1) s5
          (r, s6, k + 1)
      else
        let (r, s6, k) := wdMode4 env rem (g + 1) s2
        (r, s6, k + 1)

/-- Validation predicates checked before any wait
(xmaplugin.cpp:863-887). -/
structure WDPre where
  sessionOk : Bool
  isAdmin : Bool
  usingCuCmdStatus : Bool
  devNull : Bool
  numExecbo : Int

/-- Embedding of xma_plg_is_work_item_done (xmaplugin.cpp:861-1101):
validation; an immediate consume attempt (lines 891-898); then the
wait-slice budget iter1 = timeout_ms / 10 raised to at least 10 (lines
928-931) and dispatch on the four CPU modes, mode 4 raising the budget
to at least 20 (lines 1040-1044).  Result: return code, final state,
wait-loop iterations executed. -/
def xma_plg_is_work_item_done (pre : WDPre) (mode : ℕ) (timeout_ms : ℕ)
    (env : WDEnv) (s0 : WDState) : Int × WDState × ℕ :=
  if ¬pre.sessionOk then (XMA_ERROR, s0, 0)
  else if pre.isAdmin then (XMA_ERROR, s0, 0)
  else if pre.usingCuCmdStatus then (XMA_ERROR, s0, 0)
  else if pre.devNull then (XMA_ERROR, s0, 0)
  else if pre.numExecbo ≤ 0 then (XMA_ERROR, s0, 0)
  else
    let (took, s1) := wdTake env s0
    if took then (XMA_SUCCESS, s1, 0)
    else
      let it0 := timeout_ms / 10
      let iter1 := if it0 < 10 then 10 else it0
      if mode = 1 then wdMode1 env iter1 s1
      else if mode = 2 then wdMode2 env (iter1 * 10) s1
      else if mode = 3 then wdMode3 env iter1 s1
      else
        let iter2 := if iter1 < 20 then 20 else iter1
        wdMode4 env iter2 0 s1


/-! ## XGQ VMR submission ring producer (device_linux.h submit_cmd) -/

/-- Observable actions of submit_cmd (device_linux.h:563-592), in
program order. writePayload carries the destination slot address and the
number of bytes copied by xocl_memcpy_toio. -/
inductive SubmitEv where
  | lockQ : SubmitEv
  | produceOk (addr : ℕ) : SubmitEv
  | writePayload (addr : ℕ) (bytes : ℕ) : SubmitEv
  | notifyProduced : SubmitEv
  | listAdd : SubmitEv
  | unlockQ : SubmitEv
  deriving Repr, DecidableEq

/-- Embedding of submit_cmd (device_linux.h:563-592) as the event trace
of one call: take xgq_lock; fail with -EIO when the service is halted;
call xgq_produce, failing with its code; otherwise copy the whole
fixed-size command record (sizeof(cmd->xgq_cmd_entry), the parameter
entryBytes) into the returned slot, call xgq_notify_peer_produced,
append the command to xgq_submitted_cmds and release the lock.  Returns
(rval, trace). -/
def submit_cmd (halted : Bool) (produce : Option ℕ) (produceErr : Int)
    (entryBytes : ℕ) : Int × List SubmitEv :=
  if halted then (-5, [SubmitEv.lockQ, SubmitEv.unlockQ])
  else
    match produce with
    | none => (produceErr, [SubmitEv.lockQ, SubmitEv.unlockQ])
    | some slotAddr =>
      (0, [SubmitEv.lockQ, SubmitEv.produceOk slotAddr,
           SubmitEv.writePayload slotAddr entryBytes,
           SubmitEv.notifyProduced, SubmitEv.listAdd, SubmitEv.unlockQ])

/-! ## Embedded ERT control-command dispatcher (zocl_ctrl_ert.c) -/

/-- ZERT_MAX_NUM_CU (zocl_ctrl_ert.c:82). -/
def ZERT_MAX_NUM_CU : ℕ := 256

/-- Completion state XGQ_CMD_STATE_COMPLETED from the XGQ command
header (xgq_cmd header outside the sources; the value is immaterial,
only that init_resp always stores this one constant). -/
def XGQ_CMD_STATE_COMPLETED : ℕ := 1

/-- Opcode constants of the zert_op_table (values live in xgq_cmd.h
outside the sources; only their distinctness matters to the lookup). -/
def XGQ_CMD_OP_CFG_START : ℕ := 1

/-- Opcode XGQ_CMD_OP_CFG_END. -/
def XGQ_CMD_OP_CFG_END : ℕ := 2

/-- Opcode XGQ_CMD_OP_CFG_CU. -/
def XGQ_CMD_OP_CFG_CU : ℕ := 3

/-- Opcode XGQ_CMD_OP_QUERY_CU. -/
def XGQ_CMD_OP_QUERY_CU : ℕ := 4

/-- Opcode XGQ_CMD_OP_IDENTIFY. -/
def XGQ_CMD_OP_IDENTIFY : ℕ := 5

/-- Query type XGQ_CMD_QUERY_CU_CONFIG. -/
def XGQ_CMD_QUERY_CU_CONFIG : ℕ := 0

/-- Query type XGQ_CMD_QUERY_CU_STATUS. -/
def XGQ_CMD_QUERY_CU_STATUS : ℕ := 1

/-- An incoming control command: the sq header fields opcode and cid,
plus the opcode-specific payload fields each handler casts the command
to (num_cus and echo for CFG_START, cu_idx and query type for
QUERY_CU). -/
structure ZCmd where
  opcode : ℕ
  cid : ℕ
  num_cus : ℕ
  echo : Bool
  cu_idx : ℕ
  qtype : ℕ

/-- Payload a handler writes into the response beyond the common
header. -/
inductive ZPayload where
  | blank : ZPayload
  | ident (major minor : ℕ) : ZPayload
  | cfgFlags (i2h i2e cui ob : Bool) : ZPayload
  | queryXgq (xgqId : ℕ) (off : ℕ) : ZPayload
  | queryStatus (status : ℕ) : ZPayload
  deriving Repr, DecidableEq

/-- An xgq_com_queue_entry completion as filled by the handlers: header
cid and cstate, the return code, and the handler payload. -/
structure ZResp where
  cid : ℕ
  cstate : ℕ
  rcode : Int
  payload : ZPayload
  deriving Repr, DecidableEq

/-- init_resp (zocl_ctrl_ert.c:626-632): zero the entry, store the cid,
mark the state XGQ_CMD_STATE_COMPLETED and store the return code. -/
def init_resp (cid : ℕ) (rcode : Int) : ZResp :=
  ⟨cid, XGQ_CMD_STATE_COMPLETED, rcode, ZPayload.blank⟩

/-- Per-CU bookkeeping of zocl_ctrl_ert: whether the subdevice exists
and the CU XGQ index assigned to it. -/
structure ZCu where
  hasPdev : Bool
  xgqIdx : ℕ

/-- The zocl_ctrl_ert state fields the handlers touch. -/
structure ZertState where
  configCompleted : Bool
  numCus : ℕ
  cus : List ZCu
  echoMode : Bool

/-- External outcomes consumed by the handlers: kzalloc success in
cfg_start, the zert_validate_cus and zert_create_cu_xgqs results in
cfg_end, the zert_create_cu result in cfg_cu, and the CU status and
XGQ ring offset reads in query_cu. -/
structure ZertEnv where
  allocOk : Bool
  validateRc : Int
  createXgqRc : Int
  createCuRc : Int
  cuStatus : ℕ
  xgqOffset : ℕ

/-- zert_cmd_identify (zocl_ctrl_ert.c:634-643). -/
def zert_cmd_identify (z : ZertState) (cmd : ZCmd) : ZertState × ZResp :=
  (z, { init_resp cmd.cid 0 with payload := ZPayload.ident 1 0 })

/-- zert_cmd_cfg_start (zocl_ctrl_ert.c:645-678): too many CUs is
-EINVAL, allocation failure -ENOMEM; otherwise the CU table is reset,
configuration mode entered and the feature flags reported. -/
def zert_cmd_cfg_start (env : ZertEnv) (z : ZertState) (cmd : ZCmd) :
    ZertState × ZResp :=
  if ZERT_MAX_NUM_CU < cmd.num_cus then (z, init_resp cmd.cid (-22))
  else if ¬env.allocOk then (z, init_resp cmd.cid (-12))
  else
    ({ configCompleted := false, numCus := cmd.num_cus,
       cus := List.replicate cmd.num_cus ⟨false, 0⟩, echoMode := cmd.echo },
     { init_resp cmd.cid 0 with payload := ZPayload.cfgFlags true true false false })

/-- zert_cmd_cfg_end (zocl_ctrl_ert.c:680-701): rejected with -EINVAL
when not in config mode; otherwise config is closed and the response
code is the CU validation result, or the CU XGQ creation result when
validation passed. -/
def zert_cmd_cfg_end (env : ZertEnv) (z : ZertState) (cmd : ZCmd) :
    ZertState × ZResp :=
  if z.configCompleted then (z, init_resp cmd.cid (-22))
  else
    let rc := if env.validateRc = 0 then env.createXgqRc else env.validateRc
    ({ z with configCompleted := true }, init_resp cmd.cid rc)

/-- zert_cmd_cfg_cu (zocl_ctrl_ert.c:710-718). -/
def zert_cmd_cfg_cu (env : ZertEnv) (z : ZertState) (cmd : ZCmd) :
    ZertState × ZResp :=
  (z, init_resp cmd.cid env.createCuRc)

/-- zert_cmd_query_cu (zocl_ctrl_ert.c:720-756): out-of-range index is
-EINVAL, missing CU is -ENOENT; otherwise the response is built from
init_resp 0 and the query type selects the payload, an unknown type
re-initializing the response with -EINVAL. -/
def zert_cmd_query_cu (env : ZertEnv) (z : ZertState) (cmd : ZCmd) :
    ZertState × ZResp :=
  if z.numCus ≤ cmd.cu_idx then (z, init_resp cmd.cid (-22))
  else
    let cu := z.cus.getD cmd.cu_idx ⟨false, 0⟩
    if ¬cu.hasPdev then (z, init_resp cmd.cid (-2))
    else if cmd.qtype = XGQ_CMD_QUERY_CU_CONFIG then
      (z, { init_resp cmd.cid 0 with payload := ZPayload.queryXgq cu.xgqIdx env.xgqOffset })
    else if cmd.qtype = XGQ_CMD_QUERY_CU_STATUS then
      (z, { init_resp cmd.cid 0 with payload := ZPayload.queryStatus env.cuStatus })
    else (z, init_resp cmd.cid (-22))

/-- zert_cmd_default_handler (zocl_ctrl_ert.c:703-708): an unknown
opcode is answered with -ENOTTY. -/
def zert_cmd_default_handler (z : ZertState) (cmd : ZCmd) :
    ZertState × ZResp :=
  (z, init_resp cmd.cid (-25))

/-- opcode2handler (zocl_ctrl_ert.c:770-793): linear lookup of the
five-entry zert_op_table. -/
def opcode2handler (op : ℕ) :
    Option (ZertEnv → ZertState → ZCmd → ZertState × ZResp) :=
  if op = XGQ_CMD_OP_CFG_START then some zert_cmd_cfg_start
  else if op = XGQ_CMD_OP_CFG_END then some zert_cmd_cfg_end
  else if op = XGQ_CMD_OP_CFG_CU then some zert_cmd_cfg_cu
  else if op = XGQ_CMD_OP_QUERY_CU then some zert_cmd_query_cu
  else if op = XGQ_CMD_OP_IDENTIFY then some (fun _ => zert_cmd_identify)
  else none

/-- zert_cmd_handler (zocl_ctrl_ert.c:796-810): dispatch on the opcode,
falling back to the default handler, then send exactly the one resulting
completion through zxgq_send_response.  The second component is the list
of responses sent. -/
def zert_cmd_handler (env : ZertEnv) (z : ZertState) (cmd : ZCmd) :
    ZertState × List ZResp :=
  match opcode2handler cmd.opcode with
  | some f =>
    let (z1, r) := f env z cmd
    (z1, [r])
  | none =>
    let (z1, r) := zert_cmd_default_handler z cmd
    (z1, [r])

/-! ## Theorems -/

/-- C3: in the id-generation step of xma_plg_schedule_work_item and
xma_plg_schedule_cu_cmd, an increment of cu_cmd_id1 that would produce 0
instead sets the counter to 1, reseeds the generator and draws a fresh
cu_cmd_id2 (the drawn value being the oracle freshDraw), while a
non-wraparound increment advances cu_cmd_id2 by exactly one and does not
reseed. -/
theorem idGenStep_wrap_reseeds_else_increments (d : DevIds) (freshDraw : ℕ) :
    ((d.id1 + 1) % U32 = 0 →
      idGenStep freshDraw d = (⟨1, freshDraw % U32⟩, 1, true)) ∧
    ((d.id1 + 1) % U32 ≠ 0 →
      idGenStep freshDraw d =
        (⟨(d.id1 + 1) % U32, (d.id2 + 1) % U32⟩, (d.id1 + 1) % U32, false)) := by
  constructor <;> intro h <;> simp [idGenStep, h]

/-- Witness for C3: the wraparound branch at cu_cmd_id1 = 2^32 - 1 and a
plain increment at cu_cmd_id1 = 10. -/
theorem idGenStep_wrap_reseeds_witness :
    idGenStep 42 ⟨4294967295, 7⟩ = (⟨1, 42 % U32⟩, 1, true) ∧
    idGenStep 5 ⟨10, 7⟩ =
      (⟨(10 + 1) % U32, (7 + 1) % U32⟩, (10 + 1) % U32, false) :=
  ⟨(idGenStep_wrap_reseeds_else_increments ⟨4294967295, 7⟩ 42).1 (by decide),
   (idGenStep_wrap_reseeds_else_increments ⟨10, 7⟩ 5).2 (by decide)⟩

/-- C2: in submit_cmd of the XGQ VMR driver, whenever the produced index
is advanced (xgq_notify_peer_produced appears in the trace), the command
was accepted by xgq_produce at some slot address and the whole
fixed-size record was copied to that address strictly earlier in the
trace; no execution advances the produced counter without the payload
write having happened first. -/
theorem submit_cmd_payload_written_before_notify (halted : Bool)
    (produce : Option ℕ) (produceErr : Int) (entryBytes : ℕ)
    (h : SubmitEv.notifyProduced ∈ (submit_cmd halted produce produceErr entryBytes).2) :
    ∃ a, produce = some a ∧
      List.Sublist
        [SubmitEv.produceOk a, SubmitEv.writePayload a entryBytes,
         SubmitEv.notifyProduced]
        (submit_cmd halted produce produceErr entryBytes).2 := by
  cases halted with
  | true => simp [submit_cmd] at h
  | false =>
    cases produce with
    | none => simp [submit_cmd] at h
    | some a =>
      refine ⟨a, rfl, ?_⟩
      simp only [submit_cmd]
      exact ((((List.nil_sublist _).cons₂ _).cons₂ _).cons₂ _).cons _

/-- Witness for C2: an accepted command at slot address 4096 with a
64-byte record. -/
theorem submit_cmd_payload_written_before_notify_witness :
    ∃ a, some 4096 = some a ∧
      List.Sublist
        [SubmitEv.produceOk a, SubmitEv.writePayload a 64,
         SubmitEv.notifyProduced]
        (submit_cmd false (some 4096) 0 64).2 :=
  submit_cmd_payload_written_before_notify false (some 4096) 0 64 (by decide)

/-- The avail_get2 scan with the found flag still down yields the least
free position at or after the current one: helper for the policy
characterization. -/
theorem availGet2Scan_least (ex : List PoolSlot) :
    ∀ i k, availGet2Scan false i ex = some k →
      i ≤ k ∧ k - i < ex.length ∧ (ex.getD (k - i) default).in_use = false ∧
      ∀ j, j < k - i → (ex.getD j default).in_use = true := by
  induction ex with
  | nil => intro i k h; simp [availGet2Scan] at h
  | cons sl rest ih =>
    intro i k h
    by_cases hu : sl.in_use = true
    · have h1 : availGet2Scan false (i + 1) rest = some k := by
        simpa [availGet2Scan, hu] using h
      obtain ⟨hik, hlen, hfree, hbusy⟩ := ih (i + 1) k h1
      refine ⟨by omega, by simp only [List.length_cons]; omega, ?_, ?_⟩
      · have hk : k - i = (k - (i + 1)) + 1 := by omega
        rw [hk]
        simpa using hfree
      · intro j hj
        match j with
        | 0 => simpa using hu
        | j0 + 1 =>
          have hj0 : j0 < k - (i + 1) := by omega
          simpa using hbusy j0 hj0
    · have h1 : i = k := by simpa [availGet2Scan, hu] using h
      subst h1
      have hu2 : sl.in_use = false := by simpa using hu
      refine ⟨le_refl i, by simp, by simpa [Nat.sub_self] using hu2, ?_⟩
      intro j hj
      exact absurd hj (by omega)

/-- A three-slot pool with every slot free, used as concrete input for
the slot-pool policy facts. -/
def threeFreeSlots : List PoolSlot := [⟨false, 0, 0⟩, ⟨false, 0, 0⟩, ⟨false, 0, 0⟩]

/-- C6 counterexample: the canonical cursor scenario.  Starting from a
three-slot pool with every slot free, xma_plg_execbo_avail_get2 hands
out slot 0 then slot 1; after slot 0 is released it hands out slot 0
again, not a slot after the last returned index as a cursor-based
fairness policy would. -/
theorem xma_plg_execbo_avail_get2_reuses_slot0 :
    (xma_plg_execbo_avail_get2 ⟨threeFreeSlots, [], []⟩).1 = some 0 ∧
    (xma_plg_execbo_avail_get2
      (xma_plg_execbo_avail_get2 ⟨threeFreeSlots, [], []⟩).2).1 = some 1 ∧
    (xma_plg_execbo_avail_get2 (applyReleases [0]
      (xma_plg_execbo_avail_get2
        (xma_plg_execbo_avail_get2 ⟨threeFreeSlots, [], []⟩).2).2)).1 = some 0 := by
  decide

/-- C6 amended: xma_plg_execbo_avail_get2 performs a first-available
linear scan with no cursor: any index it returns is the lowest-indexed
free slot, which it marks in use, and whenever slot 0 is free it returns
slot 0; it differs from xma_plg_execbo_avail_get only in bookkeeping,
avail_get serving the back of its lazily rebuilt free-list cache (on the
all-free three-slot pool avail_get yields slot 2 where avail_get2 yields
slot 0). -/
theorem xma_plg_execbo_avail_get2_first_free (s : PoolState) (i : ℕ) :
    ((xma_plg_execbo_avail_get2 s).1 = some i →
      i < s.execbos.length ∧ (s.execbos.getD i default).in_use = false ∧
      (∀ j, j < i → (s.execbos.getD j default).in_use = true) ∧
      (xma_plg_execbo_avail_get2 s).2.execbos =
        s.execbos.set i { s.execbos.getD i default with in_use := true }) ∧
    (0 < s.execbos.length → (s.execbos.getD 0 default).in_use = false →
      (xma_plg_execbo_avail_get2 s).1 = some 0) ∧
    (xma_plg_execbo_avail_get ⟨threeFreeSlots, [], []⟩).1 = some 2 ∧
    (xma_plg_execbo_avail_get2 ⟨threeFreeSlots, [], []⟩).1 = some 0 := by
  refine ⟨?_, ?_, by decide, by decide⟩
  · intro h
    match hscan : availGet2Scan false 0 s.execbos with
    | none => simp [xma_plg_execbo_avail_get2, hscan] at h
    | some k =>
      have hk : k = i := by
        simpa [xma_plg_execbo_avail_get2, hscan] using h
      subst hk
      obtain ⟨-, hlen, hfree, hbusy⟩ := availGet2Scan_least s.execbos 0 k hscan
      simp only [Nat.sub_zero] at hlen hfree hbusy
      exact ⟨hlen, hfree, hbusy, by simp [xma_plg_execbo_avail_get2, hscan]⟩
  · intro hlen hfree
    match hex : s.execbos with
    | [] => simp [hex] at hlen
    | sl :: rest =>
      have hsl : sl.in_use = false := by simpa [hex] using hfree
      simp [xma_plg_execbo_avail_get2, hex, availGet2Scan, hsl]

/-- Witness for C6: the amended characterization applied to a concrete
pool whose slot 0 is busy and slot 1 free. -/
theorem xma_plg_execbo_avail_get2_first_free_witness :
    1 < ([⟨true, 0, 0⟩, ⟨false, 0, 0⟩] : List PoolSlot).length ∧
    (([⟨true, 0, 0⟩, ⟨false, 0, 0⟩] : List PoolSlot).getD 1 default).in_use = false ∧
    (∀ j, j < 1 →
      (([⟨true, 0, 0⟩, ⟨false, 0, 0⟩] : List PoolSlot).getD j default).in_use = true) ∧
    (xma_plg_execbo_avail_get2 ⟨[⟨true, 0, 0⟩, ⟨false, 0, 0⟩], [], []⟩).2.execbos =
      ([⟨true, 0, 0⟩, ⟨false, 0, 0⟩] : List PoolSlot).set 1
        { ([⟨true, 0, 0⟩, ⟨false, 0, 0⟩] : List PoolSlot).getD 1 default with in_use := true } :=
  (xma_plg_execbo_avail_get2_first_free ⟨[⟨true, 0, 0⟩, ⟨false, 0, 0⟩], [], []⟩ 1).1
    (by decide)


/-- The all-default oracle streams: no slot is ever released while a
submitter waits, and the reseed draw is fixed; used as concrete inputs
by several witnesses. -/
def noReleases : ℕ → List ℕ := fun _ => []

/-- A constant reseed-draw oracle for concrete inputs. -/
def zeroDraw : ℕ → ℕ := fun _ => 0

/-- C4: a call to xma_plg_schedule_work_item or xma_plg_schedule_cu_cmd
whose regmap is null, or whose regmap_size is non-positive, larger than
MAX_KERNEL_REGMAP_SIZE, or not a multiple of four bytes, rejects the
submission: it returns the default command object with the return_code
out-parameter set to XMA_ERROR, leaves the session state untouched
(no execbo slot acquired, no registry entry inserted) and performs zero
acquisition attempts. -/
theorem schedule_rejects_invalid_regmap (args : SchedArgs) (extra : CuCmdArgs)
    (env : SchedEnv) (fuel : ℕ) (uninit : CmdObj) (s : SessState)
    (h : args.regmapNull = true ∨ args.regmapSize ≤ 0 ∨
         args.regmapSize > MAX_KERNEL_REGMAP_SIZE ∨ args.regmapSize % 4 ≠ 0) :
    xma_plg_schedule_work_item args env fuel uninit s =
      some ⟨cmd_obj_default uninit, XMA_ERROR, s, 0⟩ ∧
    xma_plg_schedule_cu_cmd args extra env fuel uninit s =
      some ⟨cmd_obj_default uninit, XMA_ERROR, s, 0⟩ := by
  constructor
  · unfold xma_plg_schedule_work_item
    split_ifs
    any_goals rfl
    rcases h with h | h | h | h <;> simp_all
  · unfold xma_plg_schedule_cu_cmd
    split_ifs
    any_goals rfl
    rcases h with h | h | h | h <;> simp_all

/-- Witness for C4: a negative regmap_size of -4 is rejected by both
entry points on a concrete session. -/
theorem schedule_rejects_invalid_regmap_witness :
    xma_plg_schedule_work_item ⟨true, false, false, false, -4, 0, 0, 7⟩
        ⟨true, false, noReleases, true, zeroDraw⟩ 5 ⟨0, 0, false, 0, -1, none⟩
        ⟨⟨threeFreeSlots, [], []⟩, ⟨⟨0, 0⟩, ∅, 0⟩⟩ =
      some ⟨cmd_obj_default ⟨0, 0, false, 0, -1, none⟩, XMA_ERROR,
        ⟨⟨threeFreeSlots, [], []⟩, ⟨⟨0, 0⟩, ∅, 0⟩⟩, 0⟩ ∧
    xma_plg_schedule_cu_cmd ⟨true, false, false, false, -4, 0, 0, 7⟩
        ⟨0, 1, false, true⟩ ⟨true, false, noReleases, true, zeroDraw⟩ 5
        ⟨0, 0, false, 0, -1, none⟩ ⟨⟨threeFreeSlots, [], []⟩, ⟨⟨0, 0⟩, ∅, 0⟩⟩ =
      some ⟨cmd_obj_default ⟨0, 0, false, 0, -1, none⟩, XMA_ERROR,
        ⟨⟨threeFreeSlots, [], []⟩, ⟨⟨0, 0⟩, ∅, 0⟩⟩, 0⟩ :=
  schedule_rejects_invalid_regmap ⟨true, false, false, false, -4, 0, 0, 7⟩
    ⟨0, 1, false, true⟩ ⟨true, false, noReleases, true, zeroDraw⟩ 5
    ⟨0, 0, false, 0, -1, none⟩ ⟨⟨threeFreeSlots, [], []⟩, ⟨⟨0, 0⟩, ∅, 0⟩⟩
    (Or.inr (Or.inl (by decide)))

/-- The avail_get2 scan finds nothing in a fully busy slot array. -/
theorem availGet2Scan_none_of_busy (ex : List PoolSlot)
    (h : ∀ sl ∈ ex, sl.in_use = true) : ∀ i, availGet2Scan false i ex = none := by
  induction ex with
  | nil => intro i; rfl
  | cons sl rest ih =>
    intro i
    have hsl : sl.in_use = true := h sl (by simp)
    have hrest : ∀ sl1 ∈ rest, sl1.in_use = true := fun sl1 hm => h sl1 (by simp [hm])
    simpa [availGet2Scan, hsl] using ih hrest (i + 1)

/-- Neither acquisition policy finds a slot in a fully busy pool with an
empty free-list cache, and neither changes the pool. -/
theorem availDispatch_none_of_busy (m : Bool) (p : PoolState)
    (hbusy : ∀ sl ∈ p.execbos, sl.in_use = true) (hlru : p.lru = []) :
    availDispatch m p = (none, p) := by
  cases m with
  | true =>
    simp [availDispatch, xma_plg_execbo_avail_get2,
      availGet2Scan_none_of_busy p.execbos hbusy 0]
  | false =>
    cases p with
    | mk ex lru chk =>
      simp only at hbusy hlru
      subst hlru
      have hfil : (List.range ex.length).filter
          (fun i => !((ex.getD i default).in_use)) = [] := by
        rw [List.filter_eq_nil_iff]
        intro i hi
        have hilen : i < ex.length := List.mem_range.mp hi
        have hmem : ex.getD i default ∈ ex := by
          rw [List.getD_eq_getElem _ _ hilen]
          exact List.getElem_mem hilen
        simpa using hbusy _ hmem
      show availDispatch false ⟨ex, [], chk⟩ = (none, ⟨ex, [], chk⟩)
      unfold availDispatch xma_plg_execbo_avail_get
      dsimp only
      rw [hfil]
      rfl

/-- With a fully busy pool, an empty cache and no releases from other
threads, every acquisition attempt fails: the retry loop performs all
rem + 1 attempts, leaves the pool untouched and gives up. -/
theorem acquireLoopAux_none_of_busy (m : Bool) (rel : ℕ → List ℕ)
    (hrel : ∀ k, rel k = []) (p : PoolState)
    (hbusy : ∀ sl ∈ p.execbos, sl.in_use = true) (hlru : p.lru = []) :
    ∀ rem itr, acquireLoopAux m rel rem itr p = (none, p, rem + 1) := by
  intro rem
  induction rem with
  | zero =>
    intro itr
    simp [acquireLoopAux, availDispatch_none_of_busy m p hbusy hlru]
  | succ r ih =>
    intro itr
    have hnone := availDispatch_none_of_busy m p hbusy hlru
    have happ : applyReleases (rel itr) p = p := by
      rw [hrel itr]; rfl
    simp [acquireLoopAux, hnone, happ, ih (itr + 1)]

/-- A two-slot pool with both slots in use. -/
def twoBusySlots : PoolState := ⟨[⟨true, 0, 0⟩, ⟨true, 0, 0⟩], [], []⟩

/-- If every acquisition attempt up to wait j fails on the two-slot busy
pool but slot 1 is released during wait j, the retry loop succeeds at
attempt j + 2 instead of giving up. -/
theorem acquireLoopAux_single_release (j : ℕ) :
    ∀ rem itr, itr ≤ j → j - itr < rem →
      (acquireLoopAux true (fun k => if k = j then [1] else []) rem itr
        twoBusySlots).1 = some 1 ∧
      (acquireLoopAux true (fun k => if k = j then [1] else []) rem itr
        twoBusySlots).2.2 = (j - itr) + 2 := by
  intro rem
  induction rem with
  | zero => intro itr h1 h2; omega
  | succ r ih =>
    intro itr hij hlt
    have hnone : availDispatch true twoBusySlots = (none, twoBusySlots) := by decide
    by_cases hj : itr = j
    · subst hj
      have happ : applyReleases [1] twoBusySlots =
          ⟨[⟨true, 0, 0⟩, ⟨false, 0, 0⟩], [], []⟩ := by decide
      have hfree : availDispatch true ⟨[⟨true, 0, 0⟩, ⟨false, 0, 0⟩], [], []⟩ =
          (some 1, ⟨[⟨true, 0, 0⟩, ⟨true, 0, 0⟩], [], []⟩) := by decide
      have hsucc : ∀ rem2 itr2,
          acquireLoopAux true (fun k => if k = itr then [1] else []) rem2 itr2
            ⟨[⟨true, 0, 0⟩, ⟨false, 0, 0⟩], [], []⟩ =
          (some 1, ⟨[⟨true, 0, 0⟩, ⟨true, 0, 0⟩], [], []⟩, 1) := by
        intro rem2 itr2
        cases rem2 <;> simp [acquireLoopAux, hfree]
      constructor <;> simp [acquireLoopAux, hnone, happ, hsucc r (itr + 1)]
    · have hne : (fun k => if k = j then [1] else []) itr = ([] : List ℕ) := by
        simp [hj]
      have happ0 : applyReleases [] twoBusySlots = twoBusySlots := rfl
      obtain ⟨ih1, ih2⟩ := ih (itr + 1) (by omega) (by omega)
      constructor
      · simpa [acquireLoopAux, hnone, hne, happ0] using ih1
      · have : (acquireLoopAux true (fun k => if k = j then [1] else []) (r + 1)
            itr twoBusySlots).2.2 =
            (acquireLoopAux true (fun k => if k = j then [1] else []) r (itr + 1)
              twoBusySlots).2.2 + 1 := by
          simp [acquireLoopAux, hnone, hne, happ0]
        rw [this, ih2]
        omega

/-- C7: with valid arguments, when the execbo pool has no free slot a
single failed acquisition attempt does not produce an error: under a
fully busy pool with no releases, both schedule entry points perform all
17 acquisition attempts (initial attempt plus 16 retries after waiting,
the itr > 15 cut) before returning the default command object with
XMA_ERROR; and if, on a fully busy two-slot pool, a slot is released
during any wait j up to 15, the retry loop succeeds at attempt j + 2
instead of surfacing an error. -/
theorem schedule_retries_before_error (args : SchedArgs) (extra : CuCmdArgs)
    (env : SchedEnv) (fuel : ℕ) (uninit : CmdObj) (s : SessState)
    (hargs : args.sessionOk = true ∧ args.sessionTypeAdmin = false ∧
             args.devNull = false ∧ args.regmapNull = false ∧
             0 < args.regmapSize ∧ args.regmapSize ≤ MAX_KERNEL_REGMAP_SIZE ∧
             args.regmapSize % 4 = 0)
    (hkds : env.kdsOld = true) (hrel : ∀ k, env.releases k = [])
    (hbusy : ∀ sl ∈ s.pool.execbos, sl.in_use = true) (hlru : s.pool.lru = []) :
    xma_plg_schedule_work_item args env fuel uninit s =
      some ⟨cmd_obj_default uninit, XMA_ERROR, s, 17⟩ ∧
    xma_plg_schedule_cu_cmd args extra env fuel uninit s =
      some ⟨cmd_obj_default uninit, XMA_ERROR, s, 17⟩ ∧
    ∀ j, j ≤ 15 →
      (acquireLoop true (fun k => if k = j then [1] else []) twoBusySlots).1 =
        some 1 ∧
      (acquireLoop true (fun k => if k = j then [1] else []) twoBusySlots).2.2 =
        j + 2 := by
  obtain ⟨h1, h2, h3, h4, h5, h6, h7⟩ := hargs
  have hacq : acquireLoop env.cpuMode2 env.releases s.pool = (none, s.pool, 17) :=
    acquireLoopAux_none_of_busy env.cpuMode2 env.releases hrel s.pool hbusy hlru 16 0
  refine ⟨?_, ?_, ?_⟩
  · unfold xma_plg_schedule_work_item
    rw [if_neg (by simp [h1]), if_neg (by simp [h2]), if_neg (by simp [h3]),
        if_neg (by simp [h4]), if_neg (by omega), if_neg (by omega),
        if_neg (by simp [h7])]
    unfold scheduleCore
    rw [if_neg (by simp [hkds]), hacq]
  · unfold xma_plg_schedule_cu_cmd
    rw [if_neg (by simp [h1]), if_neg (by simp [h3]), if_neg (by simp [h2]),
        if_neg (by simp [h2]), if_neg (by simp [h4]), if_neg (by omega),
        if_neg (by omega), if_neg (by simp [h7])]
    unfold scheduleCore
    rw [if_neg (by simp [hkds]), hacq]
  · intro j hj
    simpa [acquireLoop] using acquireLoopAux_single_release j 16 0 (by omega) (by omega)

/-- Witness for C7: a concrete valid 64-byte submission on a session
whose two execbo slots are both busy. -/
theorem schedule_retries_before_error_witness :
    xma_plg_schedule_work_item ⟨true, false, false, false, 64, 0, 0, 7⟩
        ⟨true, false, noReleases, true, zeroDraw⟩ 3 ⟨0, 0, false, 0, -1, none⟩
        ⟨twoBusySlots, ⟨⟨0, 0⟩, ∅, 0⟩⟩ =
      some ⟨cmd_obj_default ⟨0, 0, false, 0, -1, none⟩, XMA_ERROR,
        ⟨twoBusySlots, ⟨⟨0, 0⟩, ∅, 0⟩⟩, 17⟩ ∧
    xma_plg_schedule_cu_cmd ⟨true, false, false, false, 64, 0, 0, 7⟩
        ⟨0, 1, false, true⟩ ⟨true, false, noReleases, true, zeroDraw⟩ 3
        ⟨0, 0, false, 0, -1, none⟩ ⟨twoBusySlots, ⟨⟨0, 0⟩, ∅, 0⟩⟩ =
      some ⟨cmd_obj_default ⟨0, 0, false, 0, -1, none⟩, XMA_ERROR,
        ⟨twoBusySlots, ⟨⟨0, 0⟩, ∅, 0⟩⟩, 17⟩ ∧
    ∀ j, j ≤ 15 →
      (acquireLoop true (fun k => if k = j then [1] else []) twoBusySlots).1 =
        some 1 ∧
      (acquireLoop true (fun k => if k = j then [1] else []) twoBusySlots).2.2 =
        j + 2 :=
  schedule_retries_before_error ⟨true, false, false, false, 64, 0, 0, 7⟩
    ⟨0, 1, false, true⟩ ⟨true, false, noReleases, true, zeroDraw⟩ 3
    ⟨0, 0, false, 0, -1, none⟩ ⟨twoBusySlots, ⟨⟨0, 0⟩, ∅, 0⟩⟩
    (by decide) rfl (fun _ => rfl) (by decide) rfl

/-- C9: every control command delivered to zert_cmd_handler yields
exactly one completion response through zxgq_send_response; its header
cid equals the incoming cid and its cstate is XGQ_CMD_STATE_COMPLETED
whichever handler ran; and a command whose opcode is not in the
zert_op_table is answered by the default handler with return code
-ENOTTY (-25) rather than dropped. -/
theorem zert_cmd_handler_one_completed_response (env : ZertEnv)
    (z : ZertState) (cmd : ZCmd) :
    (zert_cmd_handler env z cmd).2.length = 1 ∧
    (∀ r ∈ (zert_cmd_handler env z cmd).2,
      r.cid = cmd.cid ∧ r.cstate = XGQ_CMD_STATE_COMPLETED) ∧
    (opcode2handler cmd.opcode = none →
      (zert_cmd_handler env z cmd).2 = [init_resp cmd.cid (-25)]) := by
  unfold zert_cmd_handler opcode2handler zert_cmd_cfg_start zert_cmd_cfg_end
    zert_cmd_cfg_cu zert_cmd_query_cu zert_cmd_identify zert_cmd_default_handler
  split_ifs <;> dsimp only <;>
    first
      | (split_ifs <;> simp [init_resp])
      | simp [init_resp]

/-- Witness for C9: a command with the unknown opcode 99 is answered
with one completed response carrying -ENOTTY. -/
theorem zert_cmd_handler_one_completed_response_witness :
    (zert_cmd_handler ⟨true, 0, 0, 0, 0, 0⟩ ⟨false, 0, [], false⟩
      ⟨99, 5, 0, false, 0, 0⟩).2.length = 1 ∧
    (∀ r ∈ (zert_cmd_handler ⟨true, 0, 0, 0, 0, 0⟩ ⟨false, 0, [], false⟩
      ⟨99, 5, 0, false, 0, 0⟩).2,
      r.cid = 5 ∧ r.cstate = XGQ_CMD_STATE_COMPLETED) ∧
    (opcode2handler 99 = none →
      (zert_cmd_handler ⟨true, 0, 0, 0, 0, 0⟩ ⟨false, 0, [], false⟩
        ⟨99, 5, 0, false, 0, 0⟩).2 = [init_resp 5 (-25)]) :=
  zert_cmd_handler_one_completed_response ⟨true, 0, 0, 0, 0, 0⟩
    ⟨false, 0, [], false⟩ ⟨99, 5, 0, false, 0, 0⟩

/-- Characterization of one xma_plg_work_item_return_code loop step on a
handle it accepts: the handle carried a non-zero cmd_id1 no longer in
the registry, and it is updated to the recorded error data when its id
is in CU_error_cmds and to a completed record otherwise, the shared
cmd_id1/return_code field untouched in the latter case. -/
theorem retCodeStep_spec (sess : RetSess) (cmd : CmdObj) (cmd1 : CmdObj)
    (n : ℕ) (h : retCodeStep sess cmd = some (cmd1, n)) :
    cmd.cmd_id1 ≠ 0 ∧ cmd.cmd_id1 ∉ sess.cmds ∧
    (if cmd.cmd_id1 ∈ sess.errKeys then
      n = 1 ∧ cmd1 = { cmd with
        cmd_finished := true, do_not_use1 := none,
        id_rc := (sess.errOf cmd.cmd_id1).return_code % U32,
        cmd_state := (sess.errOf cmd.cmd_id1).cmd_state }
    else
      n = 0 ∧ cmd1 = { cmd with
        cmd_finished := true, cmd_state := xma_cmd_state_completed,
        do_not_use1 := none }) := by
  unfold retCodeStep at h
  split_ifs at h with g1 g2 g3 g4 g5
  · refine ⟨fun h0 => g3 (Or.inl h0), g4, ?_⟩
    rw [if_pos g5]
    simp only [Option.some.injEq, Prod.mk.injEq] at h
    exact ⟨h.2.symm, h.1.symm⟩
  · refine ⟨fun h0 => g3 (Or.inl h0), g4, ?_⟩
    rw [if_neg g5]
    simp only [Option.some.injEq, Prod.mk.injEq] at h
    exact ⟨h.2.symm, h.1.symm⟩

/-- C5 counterexample: a finished handle with cmd_id1 = 5 that is
absent from CU_error_cmds is reported finished and completed, but its
return_code reads 5 (the cmd_id1 it shares storage with), not 0: the
source comments out the return_code = 0 assignment precisely because
the field is shared (xmaplugin.cpp:1153). -/
theorem work_item_return_code_clean_not_zero :
    xma_plg_work_item_return_code ⟨∅, ∅, fun _ => ⟨0, 0⟩, 7, 3, false⟩
        [⟨5, 9, false, 0, 3, some 7⟩] =
      some ([⟨5, 9, true, xma_cmd_state_completed, 3, none⟩], 0) ∧
    CmdObj.return_code ⟨5, 9, true, xma_cmd_state_completed, 3, none⟩ = 5 := by
  constructor <;> decide

/-- C5 amended: on a finished-handle array xma_plg_work_item_return_code
accepts, every handle held a non-zero cmd_id1 absent from CU_cmds; a
handle whose cmd_id1 is in CU_error_cmds receives that entry's recorded
return code and error state and is counted in num_cu_errors (out.2 is
exactly the number of such handles); a handle absent from CU_error_cmds
is marked finished with state completed and its signature cleared, but
its shared cmd_id1/return_code field is left unchanged, still holding
the non-zero cmd_id1 rather than 0. -/
theorem work_item_return_code_classification (sess : RetSess) :
    ∀ (cmds : List CmdObj) (out : List CmdObj × ℕ),
      xma_plg_work_item_return_code sess cmds = some out →
      out.1.length = cmds.length ∧
      out.2 = (cmds.filter (fun c => c.cmd_id1 ∈ sess.errKeys)).length ∧
      ∀ i, i < cmds.length →
        (cmds.getD i default).cmd_id1 ≠ 0 ∧
        (cmds.getD i default).cmd_id1 ∉ sess.cmds ∧
        (if (cmds.getD i default).cmd_id1 ∈ sess.errKeys then
          out.1.getD i default = { cmds.getD i default with
            cmd_finished := true, do_not_use1 := none,
            id_rc := (sess.errOf (cmds.getD i default).cmd_id1).return_code % U32,
            cmd_state := (sess.errOf (cmds.getD i default).cmd_id1).cmd_state }
        else
          out.1.getD i default = { cmds.getD i default with
            cmd_finished := true, cmd_state := xma_cmd_state_completed,
            do_not_use1 := none } ∧
          (out.1.getD i default).cmd_id1 = (cmds.getD i default).cmd_id1) := by
  intro cmds
  induction cmds with
  | nil =>
    intro out h
    simp only [xma_plg_work_item_return_code, Option.some.injEq] at h
    subst h
    exact ⟨rfl, rfl, fun i hi => absurd hi (by simp)⟩
  | cons cmd rest ih =>
    intro out h
    simp only [xma_plg_work_item_return_code] at h
    match hstep : retCodeStep sess cmd with
    | none => rw [hstep] at h; exact absurd h (by simp)
    | some (cmd1, n) =>
      rw [hstep] at h
      match hrest : xma_plg_work_item_return_code sess rest with
      | none => rw [hrest] at h; exact absurd h (by simp)
      | some (rest1, m) =>
        rw [hrest] at h
        simp only [Option.some.injEq] at h
        subst h
        obtain ⟨hlen, hcount, helem⟩ := ih (rest1, m) hrest
        obtain ⟨hne, hnotin, hcase⟩ := retCodeStep_spec sess cmd cmd1 n hstep
        refine ⟨by simpa using hlen, ?_, ?_⟩
        · have hm : m =
              (rest.filter (fun c => decide (c.cmd_id1 ∈ sess.errKeys))).length :=
            hcount
          by_cases hk : cmd.cmd_id1 ∈ sess.errKeys
          · rw [if_pos hk] at hcase
            obtain ⟨hn, -⟩ := hcase
            show n + m = (List.filter _ (cmd :: rest)).length
            rw [List.filter_cons, if_pos (by simp [hk]), List.length_cons]
            omega
          · rw [if_neg hk] at hcase
            obtain ⟨hn, -⟩ := hcase
            show n + m = (List.filter _ (cmd :: rest)).length
            rw [List.filter_cons, if_neg (by simp [hk])]
            omega
        · intro i hi
          match i with
          | 0 =>
            refine ⟨hne, hnotin, ?_⟩
            by_cases hk : cmd.cmd_id1 ∈ sess.errKeys
            · rw [if_pos hk] at hcase
              simpa [hk] using hcase.2
            · rw [if_neg hk] at hcase
              simp only [List.getD_cons_zero]
              rw [if_neg hk]
              refine ⟨hcase.2, ?_⟩
              rw [hcase.2]
              rfl
          | i0 + 1 =>
            have hi0 : i0 < rest.length := by simpa using hi
            simpa using helem i0 hi0

/-- Witness for C5: the error-count equation of the amended theorem at a
concrete two-handle array whose first handle is in the error set. -/
theorem work_item_return_code_classification_witness :
    (([⟨11, 0, true, 2, 3, none⟩,
       ⟨5, 9, true, xma_cmd_state_completed, 3, none⟩], 1) :
        List CmdObj × ℕ).2 =
      (([⟨4, 0, false, 0, 3, some 7⟩, ⟨5, 9, false, 0, 3, some 7⟩] :
          List CmdObj).filter
        (fun c => c.cmd_id1 ∈ ({4} : Finset ℕ))).length :=
  (work_item_return_code_classification ⟨∅, {4}, fun _ => ⟨11, 2⟩, 7, 3, false⟩
    [⟨4, 0, false, 0, 3, some 7⟩, ⟨5, 9, false, 0, 3, some 7⟩]
    ([⟨11, 0, true, 2, 3, none⟩,
      ⟨5, 9, true, xma_cmd_state_completed, 3, none⟩], 1) (by decide)).2.1

/-- The number of wait-loop iterations xma_plg_is_work_item_done budgets
for a given CPU mode and timeout: timeout_ms / 10 raised to at least 10,
tenfold in mode 2, raised to at least 20 in mode 4. -/
def wdBudget (mode timeout_ms : ℕ) : ℕ :=
  let it0 := timeout_ms / 10
  let iter1 := if it0 < 10 then 10 else it0
  if mode = 1 then iter1
  else if mode = 2 then iter1 * 10
  else if mode = 3 then iter1
  else if iter1 < 20 then 20 else iter1

/-- With no completion arriving at the read, a consume attempt fails and
only advances the read index. -/
theorem wdTake_zero (env : WDEnv) (s : WDState)
    (ha : env.arrivals s.rIdx = 0) (hc : s.c = 0) :
    wdTake env s = (false, { s with c := 0, rIdx := s.rIdx + 1 }) := by
  simp [wdTake, wdRead, ha, hc]

/-- Mode 1 runs its whole budget and gives up when no completion ever
arrives. -/
theorem wdMode1_no_completion (env : WDEnv) (ha : ∀ k, env.arrivals k = 0) :
    ∀ n s, s.c = 0 →
      (wdMode1 env n s).1 = XMA_ERROR ∧ (wdMode1 env n s).2.2 = n := by
  intro n
  induction n with
  | zero => intro s hc; exact ⟨rfl, rfl⟩
  | succ n1 ih =>
    intro s hc
    have htake := wdTake_zero env s (ha s.rIdx) hc
    obtain ⟨ih1, ih2⟩ := ih { s with c := 0, rIdx := s.rIdx + 1 } rfl
    constructor
    · simpa [wdMode1, htake] using ih1
    · have hrec : (wdMode1 env (n1 + 1) s).2.2 =
          (wdMode1 env n1 { s with c := 0, rIdx := s.rIdx + 1 }).2.2 + 1 := by
        simp [wdMode1, htake]
      rw [hrec, ih2]

/-- Mode 2 runs its whole (tenfold) budget and gives up when no
completion ever arrives and check_all_execbo keeps succeeding, whatever
the try-lock outcomes. -/
theorem wdMode2_no_completion (env : WDEnv) (ha : ∀ k, env.arrivals k = 0)
    (hchk : ∀ k, env.chkOk k = true) :
    ∀ n s, s.c = 0 →
      (wdMode2 env n s).1 = XMA_ERROR ∧ (wdMode2 env n s).2.2 = n := by
  intro n
  induction n with
  | zero => intro s hc; exact ⟨rfl, rfl⟩
  | succ n1 ih =>
    intro s hc
    have hlock : wdLock env s = (env.lockOk s.lIdx, { s with lIdx := s.lIdx + 1 }) := rfl
    cases hlk : env.lockOk s.lIdx with
    | true =>
      have hchk1 : wdChk env { s with lIdx := s.lIdx + 1 } =
          (true, { s with lIdx := s.lIdx + 1, cIdx := s.cIdx + 1 }) := by
        simp [wdChk, hchk]
      have htake := wdTake_zero env { s with lIdx := s.lIdx + 1, cIdx := s.cIdx + 1 }
        (ha _) hc
      obtain ⟨ih1, ih2⟩ := ih
        { s with lIdx := s.lIdx + 1, cIdx := s.cIdx + 1, c := 0, rIdx := s.rIdx + 1 } rfl
      constructor
      · simpa [wdMode2, hlock, hlk, hchk1, htake] using ih1
      · have hrec : (wdMode2 env (n1 + 1) s).2.2 =
            (wdMode2 env n1
              { s with lIdx := s.lIdx + 1, cIdx := s.cIdx + 1, c := 0,
                       rIdx := s.rIdx + 1 }).2.2 + 1 := by
          simp [wdMode2, hlock, hlk, hchk1, htake]
        rw [hrec, ih2]
    | false =>
      have htake := wdTake_zero env { s with lIdx := s.lIdx + 1 } (ha _) hc
      obtain ⟨ih1, ih2⟩ := ih { s with lIdx := s.lIdx + 1, c := 0, rIdx := s.rIdx + 1 } rfl
      constructor
      · simpa [wdMode2, hlock, hlk, htake] using ih1
      · have hrec : (wdMode2 env (n1 + 1) s).2.2 =
            (wdMode2 env n1
              { s with lIdx := s.lIdx + 1, c := 0, rIdx := s.rIdx + 1 }).2.2 + 1 := by
          simp [wdMode2, hlock, hlk, htake]
        rw [hrec, ih2]

/-- Mode 3 runs its whole budget and gives up when no completion ever
arrives and check_all_execbo keeps succeeding. -/
theorem wdMode3_no_completion (env : WDEnv) (ha : ∀ k, env.arrivals k = 0)
    (hchk : ∀ k, env.chkOk k = true) :
    ∀ n s, s.c = 0 →
      (wdMode3 env n s).1 = XMA_ERROR ∧ (wdMode3 env n s).2.2 = n := by
  intro n
  induction n with
  | zero => intro s hc; exact ⟨rfl, rfl⟩
  | succ n1 ih =>
    intro s hc
    have hchk1 : wdChk env s = (true, { s with cIdx := s.cIdx + 1 }) := by
      simp [wdChk, hchk]
    have htake := wdTake_zero env { s with cIdx := s.cIdx + 1 } (ha _) hc
    obtain ⟨ih1, ih2⟩ := ih { s with cIdx := s.cIdx + 1, c := 0, rIdx := s.rIdx + 1 } rfl
    constructor
    · simpa [wdMode3, hchk1, htake] using ih1
    · have hrec : (wdMode3 env (n1 + 1) s).2.2 =
          (wdMode3 env n1
            { s with cIdx := s.cIdx + 1, c := 0, rIdx := s.rIdx + 1 }).2.2 + 1 := by
        simp [wdMode3, hchk1, htake]
      rw [hrec, ih2]

/-- One mode 4 iteration under no completions: whatever the try-lock
outcome and the give_up stage, the iteration consumes nothing and the
loop recurses with give_up advanced. -/
theorem wdMode4_step_no_completion (env : WDEnv) (ha : ∀ k, env.arrivals k = 0)
    (hchk : ∀ k, env.chkOk k = true) (rem g : ℕ) (s : WDState) (hc : s.c = 0) :
    ∃ s1, s1.c = 0 ∧
      wdMode4 env (rem + 1) g s =
        ((wdMode4 env rem (g + 1) s1).1, (wdMode4 env rem (g + 1) s1).2.1,
         (wdMode4 env rem (g + 1) s1).2.2 + 1) := by
  have htake1 := wdTake_zero env s (ha s.rIdx) hc
  cases hlk : env.lockOk (s.lIdx) with
  | true =>
    have hlock : wdLock env { s with c := 0, rIdx := s.rIdx + 1 } = (true, { s with c := 0, rIdx := s.rIdx + 1, lIdx := s.lIdx + 1 }) := by
      simp [wdLock, hlk]
    have hchk1 : wdChk env { s with c := 0, rIdx := s.rIdx + 1, lIdx := s.lIdx + 1 } = (true, { s with c := 0, rIdx := s.rIdx + 1, cIdx := s.cIdx + 1, lIdx := s.lIdx + 1 }) := by
      simp [wdChk, hchk]
    have htake2 := wdTake_zero env { s with c := 0, rIdx := s.rIdx + 1, cIdx := s.cIdx + 1, lIdx := s.lIdx + 1 } (ha _) rfl
    by_cases hg : g > 10
    · have htake3 := wdTake_zero env { s with c := 0, rIdx := s.rIdx + 1 + 1, cIdx := s.cIdx + 1, lIdx := s.lIdx + 1 } (ha _) rfl
      refine ⟨{ s with c := 0, rIdx := s.rIdx + 1 + 1 + 1, cIdx := s.cIdx + 1, lIdx := s.lIdx + 1 }, rfl, ?_⟩
      simp [wdMode4, htake1, hlock, hchk1, htake2, htake3, hg]
    · refine ⟨{ s with c := 0, rIdx := s.rIdx + 1 + 1, cIdx := s.cIdx + 1, lIdx := s.lIdx + 1 }, rfl, ?_⟩
      simp [wdMode4, htake1, hlock, hchk1, htake2, hg]
  | false =>
    have hlock : wdLock env { s with c := 0, rIdx := s.rIdx + 1 } = (false, { s with c := 0, rIdx := s.rIdx + 1, lIdx := s.lIdx + 1 }) := by
      simp [wdLock, hlk]
    by_cases hg : g > 10
    · have htake3 := wdTake_zero env { s with c := 0, rIdx := s.rIdx + 1, lIdx := s.lIdx + 1 } (ha _) rfl
      refine ⟨{ s with c := 0, rIdx := s.rIdx + 1 + 1, lIdx := s.lIdx + 1 }, rfl, ?_⟩
      simp [wdMode4, htake1, hlock, htake3, hg]
    · refine ⟨{ s with c := 0, rIdx := s.rIdx + 1, lIdx := s.lIdx + 1 }, rfl, ?_⟩
      simp [wdMode4, htake1, hlock, hg]

/-- Mode 4 runs its whole budget and gives up when no completion ever
arrives and check_all_execbo keeps succeeding, whatever the try-lock
outcomes and give_up stages. -/
theorem wdMode4_no_completion (env : WDEnv) (ha : ∀ k, env.arrivals k = 0)
    (hchk : ∀ k, env.chkOk k = true) :
    ∀ rem g s, s.c = 0 →
      (wdMode4 env rem g s).1 = XMA_ERROR ∧ (wdMode4 env rem g s).2.2 = rem := by
  intro rem
  induction rem with
  | zero => intro g s hc; exact ⟨rfl, rfl⟩
  | succ r ih =>
    intro g s hc
    obtain ⟨s1, hs1, hstep⟩ := wdMode4_step_no_completion env ha hchk r g s hc
    obtain ⟨ih1, ih2⟩ := ih (g + 1) s1 hs1
    rw [hstep]
    exact ⟨ih1, by simpa using ih2⟩

/-- C8: in every CPU mode (1 through 4), if no completion ever arrives
(kernel_complete_count stays 0) and check_all_execbo never fails,
xma_plg_is_work_item_done executes exactly wdBudget mode timeout_ms wait
iterations and then returns the timeout error XMA_ERROR instead of
blocking: the budget is timeout_ms / 10 raised to at least 10 slices in
modes 1 and 3, ten times that count in mode 2, and at least 20
iterations in mode 4. -/
theorem is_work_item_done_times_out (pre : WDPre) (mode timeout_ms : ℕ)
    (env : WDEnv) (s0 : WDState)
    (hpre : pre.sessionOk = true ∧ pre.isAdmin = false ∧
            pre.usingCuCmdStatus = false ∧ pre.devNull = false ∧
            0 < pre.numExecbo)
    (hm : mode = 1 ∨ mode = 2 ∨ mode = 3 ∨ mode = 4)
    (hc : s0.c = 0) (ha : ∀ k, env.arrivals k = 0)
    (hchk : ∀ k, env.chkOk k = true) :
    (xma_plg_is_work_item_done pre mode timeout_ms env s0).1 = XMA_ERROR ∧
    (xma_plg_is_work_item_done pre mode timeout_ms env s0).2.2 =
      wdBudget mode timeout_ms ∧
    10 ≤ wdBudget mode timeout_ms ∧
    (mode = 2 → wdBudget 2 timeout_ms = 10 * wdBudget 1 timeout_ms) ∧
    (mode = 4 → 20 ≤ wdBudget 4 timeout_ms) := by
  obtain ⟨h1, h2, h3, h4, h5⟩ := hpre
  have htake := wdTake_zero env s0 (ha s0.rIdx) hc
  have hs1 : ({ s0 with c := 0, rIdx := s0.rIdx + 1 } : WDState).c = 0 := rfl
  have hb1 : 10 ≤ wdBudget mode timeout_ms := by
    unfold wdBudget; dsimp only; split_ifs <;> omega
  have hb2 : wdBudget 2 timeout_ms = 10 * wdBudget 1 timeout_ms := by
    unfold wdBudget; dsimp only; split_ifs <;> omega
  have hb4 : 20 ≤ wdBudget 4 timeout_ms := by
    unfold wdBudget; dsimp only; split_ifs <;> omega
  rcases hm with rfl | rfl | rfl | rfl
  · have hfn : xma_plg_is_work_item_done pre 1 timeout_ms env s0 =
        wdMode1 env (if timeout_ms / 10 < 10 then 10 else timeout_ms / 10)
          { s0 with c := 0, rIdx := s0.rIdx + 1 } := by
      simp [xma_plg_is_work_item_done, h1, h2, h3, h4, htake,
        show ¬(pre.numExecbo ≤ 0) by omega]
    rw [hfn]
    obtain ⟨e1, e2⟩ := wdMode1_no_completion env ha _ _ hs1
    exact ⟨e1, by rw [e2]; simp [wdBudget], hb1, fun _ => hb2, fun _ => hb4⟩
  · have hfn : xma_plg_is_work_item_done pre 2 timeout_ms env s0 =
        wdMode2 env ((if timeout_ms / 10 < 10 then 10 else timeout_ms / 10) * 10)
          { s0 with c := 0, rIdx := s0.rIdx + 1 } := by
      simp [xma_plg_is_work_item_done, h1, h2, h3, h4, htake,
        show ¬(pre.numExecbo ≤ 0) by omega]
    rw [hfn]
    obtain ⟨e1, e2⟩ := wdMode2_no_completion env ha hchk _ _ hs1
    exact ⟨e1, by rw [e2]; simp [wdBudget], hb1, fun _ => hb2, fun _ => hb4⟩
  · have hfn : xma_plg_is_work_item_done pre 3 timeout_ms env s0 =
        wdMode3 env (if timeout_ms / 10 < 10 then 10 else timeout_ms / 10)
          { s0 with c := 0, rIdx := s0.rIdx + 1 } := by
      simp [xma_plg_is_work_item_done, h1, h2, h3, h4, htake,
        show ¬(pre.numExecbo ≤ 0) by omega]
    rw [hfn]
    obtain ⟨e1, e2⟩ := wdMode3_no_completion env ha hchk _ _ hs1
    exact ⟨e1, by rw [e2]; simp [wdBudget], hb1, fun _ => hb2, fun _ => hb4⟩
  · have hfn : xma_plg_is_work_item_done pre 4 timeout_ms env s0 =
        wdMode4 env
          (if (if timeout_ms / 10 < 10 then 10 else timeout_ms / 10) < 20 then 20
           else if timeout_ms / 10 < 10 then 10 else timeout_ms / 10) 0
          { s0 with c := 0, rIdx := s0.rIdx + 1 } := by
      simp [xma_plg_is_work_item_done, h1, h2, h3, h4, htake,
        show ¬(pre.numExecbo ≤ 0) by omega]
    rw [hfn]
    obtain ⟨e1, e2⟩ := wdMode4_no_completion env ha hchk _ 0 _ hs1
    exact ⟨e1, by rw [e2]; simp [wdBudget], hb1, fun _ => hb2, fun _ => hb4⟩

/-- Oracle streams of a session in which no completion ever arrives,
check_all_execbo always succeeds and the try-lock always wins. -/
def quietEnv : WDEnv := ⟨fun _ => 0, fun _ => true, fun _ => true⟩

/-- Witness for C8: a 50 ms timeout in CPU mode 1 with no completions
runs exactly wdBudget 1 50 = 10 wait slices and returns XMA_ERROR. -/
theorem is_work_item_done_times_out_witness :
    (xma_plg_is_work_item_done ⟨true, false, false, false, 2⟩ 1 50 quietEnv
      ⟨0, 0, 0, 0, 0⟩).1 = XMA_ERROR ∧
    (xma_plg_is_work_item_done ⟨true, false, false, false, 2⟩ 1 50 quietEnv
      ⟨0, 0, 0, 0, 0⟩).2.2 = wdBudget 1 50 ∧
    10 ≤ wdBudget 1 50 ∧
    ((1 : ℕ) = 2 → wdBudget 2 50 = 10 * wdBudget 1 50) ∧
    ((1 : ℕ) = 4 → 20 ≤ wdBudget 4 50) :=
  is_work_item_done_times_out ⟨true, false, false, false, 2⟩ 1 50 quietEnv
    ⟨0, 0, 0, 0, 0⟩ (by decide) (Or.inl rfl) rfl (fun _ => rfl) (fun _ => rfl)

/-- A consume attempt decrements kernel_complete_count exactly when it
reports success. -/
theorem wdTake_decs (env : WDEnv) (s : WDState) :
    ((wdTake env s).1 = true → (wdTake env s).2.decs = s.decs + 1) ∧
    ((wdTake env s).1 = false → (wdTake env s).2.decs = s.decs) := by
  unfold wdTake wdRead
  dsimp only
  split_ifs <;> simp

/-- Mode 1 decrements the completion count exactly once on XMA_SUCCESS
and not at all on XMA_ERROR. -/
theorem wdMode1_decs (env : WDEnv) : ∀ n s,
    ((wdMode1 env n s).1 = XMA_SUCCESS →
      (wdMode1 env n s).2.1.decs = s.decs + 1) ∧
    ((wdMode1 env n s).1 = XMA_ERROR → (wdMode1 env n s).2.1.decs = s.decs) := by
  intro n
  induction n with
  | zero =>
    intro s
    exact ⟨fun h => absurd (show XMA_ERROR = XMA_SUCCESS from h) (by decide),
      fun _ => rfl⟩
  | succ n1 ih =>
    intro s
    rcases htake : wdTake env s with ⟨took, s1⟩
    have hdt := (wdTake_decs env s).1
    have hdf := (wdTake_decs env s).2
    rw [htake] at hdt hdf
    cases took with
    | true =>
      have hres : wdMode1 env (n1 + 1) s = (XMA_SUCCESS, s1, 1) := by
        simp [wdMode1, htake]
      rw [hres]
      exact ⟨fun _ => hdt rfl,
        fun h => absurd (show XMA_SUCCESS = XMA_ERROR from h) (by decide)⟩
    | false =>
      rcases hin : wdMode1 env n1 s1 with ⟨r, s2, k⟩
      have hres : wdMode1 env (n1 + 1) s = (r, s2, k + 1) := by
        simp [wdMode1, htake, hin]
      obtain ⟨ihS, ihE⟩ := ih s1
      rw [hin] at ihS ihE
      rw [hres]
      have hd : s1.decs = s.decs := hdf rfl
      exact ⟨fun h => by rw [ihS h, hd], fun h => by rw [ihE h, hd]⟩

/-- Mode 2 decrements the completion count exactly once on XMA_SUCCESS
and not at all on XMA_ERROR. -/
theorem wdMode2_decs (env : WDEnv) : ∀ n s,
    ((wdMode2 env n s).1 = XMA_SUCCESS →
      (wdMode2 env n s).2.1.decs = s.decs + 1) ∧
    ((wdMode2 env n s).1 = XMA_ERROR → (wdMode2 env n s).2.1.decs = s.decs) := by
  intro n
  induction n with
  | zero =>
    intro s
    exact ⟨fun h => absurd (show XMA_ERROR = XMA_SUCCESS from h) (by decide),
      fun _ => rfl⟩
  | succ n1 ih =>
    intro s
    cases hlk : env.lockOk s.lIdx with
    | false =>
      rcases htake : wdTake env { s with lIdx := s.lIdx + 1 } with ⟨took, s2⟩
      have hdt := (wdTake_decs env { s with lIdx := s.lIdx + 1 }).1
      have hdf := (wdTake_decs env { s with lIdx := s.lIdx + 1 }).2
      rw [htake] at hdt hdf
      cases took with
      | true =>
        have hres : wdMode2 env (n1 + 1) s = (XMA_SUCCESS, s2, 1) := by
          simp [wdMode2, wdLock, hlk, htake]
        rw [hres]
        refine ⟨fun _ => ?_,
          fun h => absurd (show XMA_SUCCESS = XMA_ERROR from h) (by decide)⟩
        simpa using hdt rfl
      | false =>
        rcases hin : wdMode2 env n1 s2 with ⟨r, s3, k⟩
        have hres : wdMode2 env (n1 + 1) s = (r, s3, k + 1) := by
          simp [wdMode2, wdLock, hlk, htake, hin]
        obtain ⟨ihS, ihE⟩ := ih s2
        rw [hin] at ihS ihE
        rw [hres]
        have hd : s2.decs = s.decs := by simpa using hdf rfl
        exact ⟨fun h => by rw [ihS h, hd], fun h => by rw [ihE h, hd]⟩
    | true =>
      cases hok : env.chkOk s.cIdx with
      | false =>
        have hres : wdMode2 env (n1 + 1) s =
            (XMA_ERROR, { s with cIdx := s.cIdx + 1, lIdx := s.lIdx + 1 }, 1) := by
          simp [wdMode2, wdLock, wdChk, hlk, hok]
        rw [hres]
        exact ⟨fun h => absurd (show XMA_ERROR = XMA_SUCCESS from h) (by decide),
          fun _ => rfl⟩
      | true =>
        rcases htake : wdTake env { s with cIdx := s.cIdx + 1, lIdx := s.lIdx + 1 }
          with ⟨took, s2⟩
        have hdt := (wdTake_decs env { s with cIdx := s.cIdx + 1, lIdx := s.lIdx + 1 }).1
        have hdf := (wdTake_decs env { s with cIdx := s.cIdx + 1, lIdx := s.lIdx + 1 }).2
        rw [htake] at hdt hdf
        cases took with
        | true =>
          have hres : wdMode2 env (n1 + 1) s = (XMA_SUCCESS, s2, 1) := by
            simp [wdMode2, wdLock, wdChk, hlk, hok, htake]
          rw [hres]
          refine ⟨fun _ => ?_,
            fun h => absurd (show XMA_SUCCESS = XMA_ERROR from h) (by decide)⟩
          simpa using hdt rfl
        | false =>
          rcases hin : wdMode2 env n1 s2 with ⟨r, s3, k⟩
          have hres : wdMode2 env (n1 + 1) s = (r, s3, k + 1) := by
            simp [wdMode2, wdLock, wdChk, hlk, hok, htake, hin]
          obtain ⟨ihS, ihE⟩ := ih s2
          rw [hin] at ihS ihE
          rw [hres]
          have hd : s2.decs = s.decs := by simpa using hdf rfl
          exact ⟨fun h => by rw [ihS h, hd], fun h => by rw [ihE h, hd]⟩

/-- Mode 3 decrements the completion count exactly once on XMA_SUCCESS
and not at all on XMA_ERROR. -/
theorem wdMode3_decs (env : WDEnv) : ∀ n s,
    ((wdMode3 env n s).1 = XMA_SUCCESS →
      (wdMode3 env n s).2.1.decs = s.decs + 1) ∧
    ((wdMode3 env n s).1 = XMA_ERROR → (wdMode3 env n s).2.1.decs = s.decs) := by
  intro n
  induction n with
  | zero =>
    intro s
    exact ⟨fun h => absurd (show XMA_ERROR = XMA_SUCCESS from h) (by decide),
      fun _ => rfl⟩
  | succ n1 ih =>
    intro s
    cases hok : env.chkOk s.cIdx with
    | false =>
      have hres : wdMode3 env (n1 + 1) s =
          (XMA_ERROR, { s with cIdx := s.cIdx + 1 }, 1) := by
        simp [wdMode3, wdChk, hok]
      rw [hres]
      exact ⟨fun h => absurd (show XMA_ERROR = XMA_SUCCESS from h) (by decide),
        fun _ => rfl⟩
    | true =>
      rcases htake : wdTake env { s with cIdx := s.cIdx + 1 } with ⟨took, s2⟩
      have hdt := (wdTake_decs env { s with cIdx := s.cIdx + 1 }).1
      have hdf := (wdTake_decs env { s with cIdx := s.cIdx + 1 }).2
      rw [htake] at hdt hdf
      cases took with
      | true =>
        have hres : wdMode3 env (n1 + 1) s = (XMA_SUCCESS, s2, 1) := by
          simp [wdMode3, wdChk, hok, htake]
        rw [hres]
        refine ⟨fun _ => ?_,
          fun h => absurd (show XMA_SUCCESS = XMA_ERROR from h) (by decide)⟩
        simpa using hdt rfl
      | false =>
        rcases hin : wdMode3 env n1 s2 with ⟨r, s3, k⟩
        have hres : wdMode3 env (n1 + 1) s = (r, s3, k + 1) := by
          simp [wdMode3, wdChk, hok, htake, hin]
        obtain ⟨ihS, ihE⟩ := ih s2
        rw [hin] at ihS ihE
        rw [hres]
        have hd : s2.decs = s.decs := by simpa using hdf rfl
        exact ⟨fun h => by rw [ihS h, hd], fun h => by rw [ihE h, hd]⟩

/-- Mode 4 decrements the completion count exactly once on XMA_SUCCESS
and not at all on XMA_ERROR, across all three consume points of each
iteration. -/
theorem wdMode4_decs (env : WDEnv) : ∀ rem g s,
    ((wdMode4 env rem g s).1 = XMA_SUCCESS →
      (wdMode4 env rem g s).2.1.decs = s.decs + 1) ∧
    ((wdMode4 env rem g s).1 = XMA_ERROR →
      (wdMode4 env rem g s).2.1.decs = s.decs) := by
  intro rem
  induction rem with
  | zero =>
    intro g s
    exact ⟨fun h => absurd (show XMA_ERROR = XMA_SUCCESS from h) (by decide),
      fun _ => rfl⟩
  | succ r ih =>
    intro g s
    rcases htake1 : wdTake env s with ⟨took1, s1⟩
    have hdt1 := (wdTake_decs env s).1
    have hdf1 := (wdTake_decs env s).2
    rw [htake1] at hdt1 hdf1
    cases took1 with
    | true =>
      have hres : wdMode4 env (r + 1) g s = (XMA_SUCCESS, s1, 1) := by
        simp [wdMode4, htake1]
      rw [hres]
      refine ⟨fun _ => ?_,
        fun h => absurd (show XMA_SUCCESS = XMA_ERROR from h) (by decide)⟩
      simpa using hdt1 rfl
    | false =>
      have hd1 : s1.decs = s.decs := by simpa using hdf1 rfl
      cases hlk : env.lockOk s1.lIdx with
      | true =>
        cases hok : env.chkOk s1.cIdx with
        | false =>
          have hres : wdMode4 env (r + 1) g s =
              (XMA_ERROR, { s1 with cIdx := s1.cIdx + 1, lIdx := s1.lIdx + 1 }, 1) := by
            simp [wdMode4, wdLock, wdChk, htake1, hlk, hok]
          rw [hres]
          exact ⟨fun h => absurd (show XMA_ERROR = XMA_SUCCESS from h) (by decide),
            fun _ => by simpa using hd1⟩
        | true =>
          rcases htake2 : wdTake env { s1 with cIdx := s1.cIdx + 1, lIdx := s1.lIdx + 1 }
            with ⟨took2, s4⟩
          have hdt2 := (wdTake_decs env { s1 with cIdx := s1.cIdx + 1, lIdx := s1.lIdx + 1 }).1
          have hdf2 := (wdTake_decs env { s1 with cIdx := s1.cIdx + 1, lIdx := s1.lIdx + 1 }).2
          rw [htake2] at hdt2 hdf2
          cases took2 with
          | true =>
            have hres : wdMode4 env (r + 1) g s = (XMA_SUCCESS, s4, 1) := by
              simp [wdMode4, wdLock, wdChk, htake1, hlk, hok, htake2]
            rw [hres]
            refine ⟨fun _ => ?_,
              fun h => absurd (show XMA_SUCCESS = XMA_ERROR from h) (by decide)⟩
            have : s4.decs = s1.decs + 1 := by simpa using hdt2 rfl
            rw [this, hd1]
          | false =>
            have hd4 : s4.decs = s.decs := by
              have : s4.decs = s1.decs := by simpa using hdf2 rfl
              rw [this, hd1]
            by_cases hg : g > 10
            · rcases htake3 : wdTake env s4 with ⟨took3, s5⟩
              have hdt3 := (wdTake_decs env s4).1
              have hdf3 := (wdTake_decs env s4).2
              rw [htake3] at hdt3 hdf3
              cases took3 with
              | true =>
                have hres : wdMode4 env (r + 1) g s = (XMA_SUCCESS, s5, 1) := by
                  simp [wdMode4, wdLock, wdChk, htake1, hlk, hok, htake2, hg, htake3]
                rw [hres]
                refine ⟨fun _ => ?_,
                  fun h => absurd (show XMA_SUCCESS = XMA_ERROR from h) (by decide)⟩
                rw [hdt3 rfl, hd4]
              | false =>
                rcases hin : wdMode4 env r (g + 1) s5 with ⟨rr, s6, k⟩
                have hres : wdMode4 env (r + 1) g s = (rr, s6, k + 1) := by
                  simp [wdMode4, wdLock, wdChk, htake1, hlk, hok, htake2, hg, htake3, hin]
                obtain ⟨ihS, ihE⟩ := ih (g + 1) s5
                rw [hin] at ihS ihE
                rw [hres]
                have hd5 : s5.decs = s.decs := by rw [hdf3 rfl, hd4]
                exact ⟨fun h => by rw [ihS h, hd5], fun h => by rw [ihE h, hd5]⟩
            · rcases hin : wdMode4 env r (g + 1) s4 with ⟨rr, s6, k⟩
              have hres : wdMode4 env (r + 1) g s = (rr, s6, k + 1) := by
                simp [wdMode4, wdLock, wdChk, htake1, hlk, hok, htake2, hg, hin]
              obtain ⟨ihS, ihE⟩ := ih (g + 1) s4
              rw [hin] at ihS ihE
              rw [hres]
              exact ⟨fun h => by rw [ihS h, hd4], fun h => by rw [ihE h, hd4]⟩
      | false =>
        by_cases hg : g > 10
        · rcases htake3 : wdTake env { s1 with lIdx := s1.lIdx + 1 } with ⟨took3, s5⟩
          have hdt3 := (wdTake_decs env { s1 with lIdx := s1.lIdx + 1 }).1
          have hdf3 := (wdTake_decs env { s1 with lIdx := s1.lIdx + 1 }).2
          rw [htake3] at hdt3 hdf3
          cases took3 with
          | true =>
            have hres : wdMode4 env (r + 1) g s = (XMA_SUCCESS, s5, 1) := by
              simp [wdMode4, wdLock, htake1, hlk, hg, htake3]
            rw [hres]
            refine ⟨fun _ => ?_,
              fun h => absurd (show XMA_SUCCESS = XMA_ERROR from h) (by decide)⟩
            have : s5.decs = s1.decs + 1 := by simpa using hdt3 rfl
            rw [this, hd1]
          | false =>
            rcases hin : wdMode4 env r (g + 1) s5 with ⟨rr, s6, k⟩
            have hres : wdMode4 env (r + 1) g s = (rr, s6, k + 1) := by
              simp [wdMode4, wdLock, htake1, hlk, hg, htake3, hin]
            obtain ⟨ihS, ihE⟩ := ih (g + 1) s5
            rw [hin] at ihS ihE
            rw [hres]
            have hd5 : s5.decs = s.decs := by
              have : s5.decs = s1.decs := by simpa using hdf3 rfl
              rw [this, hd1]
            exact ⟨fun h => by rw [ihS h, hd5], fun h => by rw [ihE h, hd5]⟩
        · rcases hin : wdMode4 env r (g + 1) { s1 with lIdx := s1.lIdx + 1 }
            with ⟨rr, s6, k⟩
          have hres : wdMode4 env (r + 1) g s = (rr, s6, k + 1) := by
            simp [wdMode4, wdLock, htake1, hlk, hg, hin]
          obtain ⟨ihS, ihE⟩ := ih (g + 1) { s1 with lIdx := s1.lIdx + 1 }
          rw [hin] at ihS ihE
          rw [hres]
          have hd2 : ({ s1 with lIdx := s1.lIdx + 1 } : WDState).decs = s.decs := by
            simpa using hd1
          exact ⟨fun h => by rw [ihS h, hd2], fun h => by rw [ihE h, hd2]⟩

/-- C10: a call to xma_plg_is_work_item_done that returns XMA_SUCCESS
decrements kernel_complete_count exactly once (the consume immediately
before the successful return), and a call that returns XMA_ERROR
performs no decrement, in every CPU mode and under arbitrary completion
arrivals, check_all_execbo outcomes and try-lock outcomes. -/
theorem is_work_item_done_consumes_one (pre : WDPre) (mode timeout_ms : ℕ)
    (env : WDEnv) (s0 : WDState) :
    ((xma_plg_is_work_item_done pre mode timeout_ms env s0).1 = XMA_SUCCESS →
      (xma_plg_is_work_item_done pre mode timeout_ms env s0).2.1.decs =
        s0.decs + 1) ∧
    ((xma_plg_is_work_item_done pre mode timeout_ms env s0).1 = XMA_ERROR →
      (xma_plg_is_work_item_done pre mode timeout_ms env s0).2.1.decs =
        s0.decs) := by
  have herr : ∀ u : Int × WDState × ℕ, u = (XMA_ERROR, s0, 0) →
      (u.1 = XMA_SUCCESS → u.2.1.decs = s0.decs + 1) ∧
      (u.1 = XMA_ERROR → u.2.1.decs = s0.decs) := by
    rintro u rfl
    exact ⟨fun h => absurd (show XMA_ERROR = XMA_SUCCESS from h) (by decide),
      fun _ => rfl⟩
  unfold xma_plg_is_work_item_done
  by_cases p1 : pre.sessionOk = true
  case neg => exact herr _ (if_pos p1)
  rw [if_neg (not_not_intro p1)]
  by_cases p2 : pre.isAdmin = true
  case pos => exact herr _ (if_pos p2)
  rw [if_neg p2]
  by_cases p3 : pre.usingCuCmdStatus = true
  case pos => exact herr _ (if_pos p3)
  rw [if_neg p3]
  by_cases p4 : pre.devNull = true
  case pos => exact herr _ (if_pos p4)
  rw [if_neg p4]
  by_cases p5 : pre.numExecbo ≤ 0
  case pos => exact herr _ (if_pos p5)
  rw [if_neg p5]
  · rcases htake : wdTake env s0 with ⟨took, s1⟩
    have hdt := (wdTake_decs env s0).1
    have hdf := (wdTake_decs env s0).2
    rw [htake] at hdt hdf
    cases took with
    | true =>
      simp only [htake]
      exact ⟨fun _ => hdt rfl,
        fun h => absurd (show XMA_SUCCESS = XMA_ERROR from h) (by decide)⟩
    | false =>
      have hd1 : s1.decs = s0.decs := hdf rfl
      simp only [htake]
      rw [if_neg (show ¬(false = true) by decide)]
      by_cases hm1 : mode = 1
      · simp only [hm1, if_pos, if_true, Bool.false_eq_true, if_false]
        obtain ⟨mS, mE⟩ := wdMode1_decs env
          (if timeout_ms / 10 < 10 then 10 else timeout_ms / 10) s1
        exact ⟨fun h => by rw [mS h, hd1], fun h => by rw [mE h, hd1]⟩
      · by_cases hm2 : mode = 2
        · subst hm2
          rw [if_neg (show ¬((2 : ℕ) = 1) by decide), if_pos (rfl : (2 : ℕ) = 2)]
          obtain ⟨mS, mE⟩ := wdMode2_decs env
            ((if timeout_ms / 10 < 10 then 10 else timeout_ms / 10) * 10) s1
          exact ⟨fun h => by rw [mS h, hd1], fun h => by rw [mE h, hd1]⟩
        · by_cases hm3 : mode = 3
          · subst hm3
            rw [if_neg (show ¬((3 : ℕ) = 1) by decide),
              if_neg (show ¬((3 : ℕ) = 2) by decide), if_pos (rfl : (3 : ℕ) = 3)]
            obtain ⟨mS, mE⟩ := wdMode3_decs env
              (if timeout_ms / 10 < 10 then 10 else timeout_ms / 10) s1
            exact ⟨fun h => by rw [mS h, hd1], fun h => by rw [mE h, hd1]⟩
          · simp only [if_neg hm1, if_neg hm2, if_neg hm3, Bool.false_eq_true,
              if_false]
            obtain ⟨mS, mE⟩ := wdMode4_decs env
              (if (if timeout_ms / 10 < 10 then 10 else timeout_ms / 10) < 20
               then 20
               else if timeout_ms / 10 < 10 then 10 else timeout_ms / 10) 0 s1
            exact ⟨fun h => by rw [mS h, hd1], fun h => by rw [mE h, hd1]⟩

/-- Witness for C10: with one pending completion the call returns
XMA_SUCCESS having performed exactly one decrement; the theorem is
applied at that concrete input. -/
theorem is_work_item_done_consumes_one_witness :
    ((xma_plg_is_work_item_done ⟨true, false, false, false, 2⟩ 1 50 quietEnv
      ⟨1, 0, 0, 0, 0⟩).1 = XMA_SUCCESS →
      (xma_plg_is_work_item_done ⟨true, false, false, false, 2⟩ 1 50 quietEnv
        ⟨1, 0, 0, 0, 0⟩).2.1.decs = 0 + 1) ∧
    ((xma_plg_is_work_item_done ⟨true, false, false, false, 2⟩ 1 50 quietEnv
      ⟨1, 0, 0, 0, 0⟩).1 = XMA_ERROR →
      (xma_plg_is_work_item_done ⟨true, false, false, false, 2⟩ 1 50 quietEnv
        ⟨1, 0, 0, 0, 0⟩).2.1.decs = 0) :=
  is_work_item_done_consumes_one ⟨true, false, false, false, 2⟩ 1 50 quietEnv
    ⟨1, 0, 0, 0, 0⟩

/-- Without wraparound (enough headroom below 2^32 for the whole loop),
a successful id-generation loop returns a strictly larger, non-zero
cu_cmd_id1 that was absent from the CU_cmds registry and is inserted by
the emplace, with num_cu_cmds advanced by one. -/
theorem idGenLoop_spec (freshDraw : ℕ → ℕ) :
    ∀ fuel s id id2 s1, s.dev.id1 + fuel < U32 →
      idGenLoop freshDraw fuel s = some (id, id2, s1) →
      s.dev.id1 < id ∧ id = s1.dev.id1 ∧ s1.dev.id1 ≤ s.dev.id1 + fuel ∧
      id ∉ s.cmds ∧ s1.cmds = insert id s.cmds ∧ id ≠ 0 ∧
      s1.numCuCmds = s.numCuCmds + 1 := by
  intro fuel
  induction fuel with
  | zero =>
    intro s id id2 s1 hb h
    exact absurd h (by simp [idGenLoop])
  | succ f ih =>
    intro s id id2 s1 hb h
    have hlt : s.dev.id1 + 1 < U32 := by omega
    have hm : (s.dev.id1 + 1) % U32 = s.dev.id1 + 1 := Nat.mod_eq_of_lt hlt
    have hstep : idGenStep (freshDraw f) s.dev =
        (⟨s.dev.id1 + 1, (s.dev.id2 + 1) % U32⟩, s.dev.id1 + 1, false) := by
      simp [idGenStep, hm]
    by_cases hmem : s.dev.id1 + 1 ∈ s.cmds
    · have h2 : idGenLoop freshDraw f
          { s with dev := ⟨s.dev.id1 + 1, (s.dev.id2 + 1) % U32⟩ } =
          some (id, id2, s1) := by
        simpa [idGenLoop, hstep, hmem] using h
      have hb2 : ({ s with dev := ⟨s.dev.id1 + 1, (s.dev.id2 + 1) % U32⟩ } :
          GenState).dev.id1 + f < U32 := by
        simp only
        omega
      obtain ⟨e1, e2, e3, e4, e5, e6, e7⟩ := ih _ id id2 s1 hb2 h2
      simp only at e1 e2 e3 e4 e5 e7
      exact ⟨by omega, e2, by omega, e4, e5, e6, e7⟩
    · have h2 : some (s.dev.id1 + 1, (s.dev.id2 + 1) % U32,
          (⟨⟨s.dev.id1 + 1, (s.dev.id2 + 1) % U32⟩, insert (s.dev.id1 + 1) s.cmds,
            s.numCuCmds + 1⟩ : GenState)) = some (id, id2, s1) := by
        simpa [idGenLoop, hstep, hmem] using h
      simp only [Option.some.injEq, Prod.mk.injEq] at h2
      obtain ⟨rfl, -, rfl⟩ := h2
      exact ⟨by omega, rfl, by simp, hmem, rfl, by omega, rfl⟩

/-- Over any sequence of submissions interleaved with arbitrary
completion-side removals and without counter wraparound, the returned
primary ids are strictly increasing, all above the starting counter and
non-zero. -/
theorem runSubmits_spec (freshDraw : ℕ → ℕ) (fuel : ℕ) :
    ∀ rems s ids s1, s.dev.id1 + rems.length * fuel < U32 →
      runSubmits freshDraw fuel rems s = some (ids, s1) →
      ids.Pairwise (· < ·) ∧ (∀ a ∈ ids, s.dev.id1 < a ∧ a ≠ 0) ∧
      s.dev.id1 ≤ s1.dev.id1 ∧ (∀ a ∈ ids, a ≤ s1.dev.id1) := by
  intro rems
  induction rems with
  | nil =>
    intro s ids s1 hb h
    have h2 : some (([] : List ℕ), s) = some (ids, s1) := by
      simpa [runSubmits] using h
    simp only [Option.some.injEq, Prod.mk.injEq] at h2
    obtain ⟨rfl, rfl⟩ := h2
    exact ⟨List.Pairwise.nil, by simp, le_refl _, by simp⟩
  | cons rem rest ih =>
    intro s ids s1 hb h
    have hmul : (rest.length + 1) * fuel = rest.length * fuel + fuel :=
      Nat.succ_mul _ _
    simp only [runSubmits] at h
    set srm : GenState :=
      { s with cmds := s.cmds \ rem, numCuCmds := s.numCuCmds - rem.card } with hsrm
    match hloop : idGenLoop freshDraw fuel srm with
    | none => rw [hloop] at h; exact absurd h (by simp)
    | some (id, i2, s2) =>
      rw [hloop] at h
      dsimp only at h
      match hrest : runSubmits freshDraw fuel rest s2 with
      | none => rw [hrest] at h; exact absurd h (by simp)
      | some (ids2, s3) =>
        rw [hrest] at h
        simp only [Option.some.injEq, Prod.mk.injEq] at h
        obtain ⟨rfl, rfl⟩ := h
        have hbl : srm.dev.id1 + fuel < U32 := by
          simp only [hsrm, List.length_cons] at hb ⊢
          omega
        obtain ⟨e1, e2, e3, e4, e5, e6, e7⟩ :=
          idGenLoop_spec freshDraw fuel srm id i2 s2 hbl hloop
        have hsdev : srm.dev.id1 = s.dev.id1 := rfl
        rw [hsdev] at e1 e3
        have hb2 : s2.dev.id1 + rest.length * fuel < U32 := by
          simp only [List.length_cons] at hb
          omega
        obtain ⟨f1, f2, f3, f4⟩ := ih s2 ids2 s3 hb2 hrest
        refine ⟨?_, ?_, ?_, ?_⟩
        · rw [List.pairwise_cons]
          exact ⟨fun b hbmem => by
            have := (f2 b hbmem).1
            omega, f1⟩
        · intro a ha
          rcases List.mem_cons.mp ha with rfl | ha2
          · exact ⟨e1, e6⟩
          · have := (f2 a ha2).1
            exact ⟨by omega, (f2 a ha2).2⟩
        · omega
        · intro a ha
          rcases List.mem_cons.mp ha with rfl | ha2
          · omega
          · exact f4 a ha2

/-- An error result of a schedule entry point never carries
XMA_SUCCESS. -/
theorem schedErr_not_success (u : CmdObj) (ss : SessState) (att : ℕ)
    (res : SchedResult)
    (h : some (⟨cmd_obj_default u, XMA_ERROR, ss, att⟩ : SchedResult) = some res)
    (hs : res.rc = XMA_SUCCESS) : False := by
  obtain rfl : (⟨cmd_obj_default u, XMA_ERROR, ss, att⟩ : SchedResult) = res := by
    simpa using h
  exact absurd (show XMA_ERROR = XMA_SUCCESS from hs) (by decide)

/-- A successful pass through the common schedule core obtained its
cmd_id1 from the id-generation loop: the id is non-zero, was absent from
CU_cmds, and the final registry is the old one plus that id. -/
theorem scheduleCore_success_id (args : SchedArgs) (env : SchedEnv) (f : ℕ)
    (u : CmdObj) (ss : SessState) (res : SchedResult)
    (h : scheduleCore args env f u ss = some res)
    (hs : res.rc = XMA_SUCCESS) (hb : ss.gen.dev.id1 + f < U32) :
    res.obj.cmd_id1 ≠ 0 ∧ res.obj.cmd_id1 ∉ ss.gen.cmds ∧
    res.state.gen.cmds = insert res.obj.cmd_id1 ss.gen.cmds := by
  unfold scheduleCore at h
  split_ifs at h with g1 g2
  · match hacq : acquireLoop env.cpuMode2 env.releases ss.pool with
    | (none, pool1, att) =>
      rw [hacq] at h
      dsimp only at h
      exact (schedErr_not_success u ⟨pool1, ss.gen⟩ att res h hs).elim
    | (some bo, pool1, att) =>
      rw [hacq] at h
      dsimp only at h
      exact (schedErr_not_success u ⟨pool1, ss.gen⟩ att res h hs).elim
  · match hacq : acquireLoop env.cpuMode2 env.releases ss.pool with
    | (none, pool1, att) =>
      rw [hacq] at h
      dsimp only at h
      exact (schedErr_not_success u ⟨pool1, ss.gen⟩ att res h hs).elim
    | (some bo, pool1, att) =>
      rw [hacq] at h
      dsimp only at h
      match hloop : idGenLoop env.freshDraw f ss.gen with
      | none => rw [hloop] at h; exact absurd h (by simp)
      | some (id1, id2, gen1) =>
        rw [hloop] at h
        dsimp only at h
        obtain rfl := Option.some.inj h
        obtain ⟨e1, e2, e3, e4, e5, e6, e7⟩ :=
          idGenLoop_spec env.freshDraw f ss.gen id1 id2 gen1 hb hloop
        exact ⟨e6, e4, e5⟩

/-- C1: over every sequence of successful submissions on one session
without 32-bit counter wraparound (the headroom hypothesis), with
arbitrary registry removals by the completion path between submissions,
the primary ids handed out by the id-generation loop are pairwise
distinct and non-zero; and every successful xma_plg_schedule_work_item
or xma_plg_schedule_cu_cmd call draws its cmd_id1 from that loop, so the
returned id is never 0 and never equal to the id of a command still
present in the CU_cmds registry at insertion time (insert-if-absent). -/
theorem schedule_primary_ids_distinct_nonzero (freshDraw : ℕ → ℕ) (fuel : ℕ)
    (rems : List (Finset ℕ)) (s : GenState) (ids : List ℕ) (s1 : GenState)
    (hnw : s.dev.id1 + rems.length * fuel < U32)
    (hrun : runSubmits freshDraw fuel rems s = some (ids, s1)) :
    ids.Pairwise (· ≠ ·) ∧ (∀ a ∈ ids, a ≠ 0) ∧
    (∀ (args : SchedArgs) (env : SchedEnv) (f : ℕ) (u : CmdObj)
        (ss : SessState) (res : SchedResult),
      xma_plg_schedule_work_item args env f u ss = some res →
      res.rc = XMA_SUCCESS → ss.gen.dev.id1 + f < U32 →
      res.obj.cmd_id1 ≠ 0 ∧ res.obj.cmd_id1 ∉ ss.gen.cmds ∧
      res.state.gen.cmds = insert res.obj.cmd_id1 ss.gen.cmds) ∧
    (∀ (args : SchedArgs) (extra : CuCmdArgs) (env : SchedEnv) (f : ℕ)
        (u : CmdObj) (ss : SessState) (res : SchedResult),
      xma_plg_schedule_cu_cmd args extra env f u ss = some res →
      res.rc = XMA_SUCCESS → ss.gen.dev.id1 + f < U32 →
      res.obj.cmd_id1 ≠ 0 ∧ res.obj.cmd_id1 ∉ ss.gen.cmds ∧
      res.state.gen.cmds = insert res.obj.cmd_id1 ss.gen.cmds) := by
  obtain ⟨p1, p2, -, -⟩ := runSubmits_spec freshDraw fuel rems s ids s1 hnw hrun
  refine ⟨p1.imp (fun hlt => Nat.ne_of_lt hlt), fun a ha => (p2 a ha).2, ?_, ?_⟩
  · intro args env f u ss res h hs hbound
    unfold xma_plg_schedule_work_item at h
    split_ifs at h
    all_goals
      first
        | exact (schedErr_not_success u ss 0 res h hs).elim
        | exact scheduleCore_success_id args env f u ss res h hs hbound
  · intro args extra env f u ss res h hs hbound
    unfold xma_plg_schedule_cu_cmd at h
    split_ifs at h
    all_goals
      first
        | exact (schedErr_not_success u ss 0 res h hs).elim
        | exact scheduleCore_success_id args env f u ss res h hs hbound

/-- Witness for C1: three submissions from counter 0 with the command of
id 1 completing (and removed) before the second submission hand out ids
1, 2, 3: pairwise distinct and non-zero. -/
theorem schedule_primary_ids_distinct_nonzero_witness :
    ([1, 2, 3] : List ℕ).Pairwise (· ≠ ·) ∧
    (∀ a ∈ ([1, 2, 3] : List ℕ), a ≠ 0) :=
  ⟨(schedule_primary_ids_distinct_nonzero zeroDraw 3 [∅, {1}, ∅] ⟨⟨0, 0⟩, ∅, 0⟩
      [1, 2, 3] ⟨⟨3, 3⟩, {3, 2}, 2⟩ (by decide) (by decide)).1,
   (schedule_primary_ids_distinct_nonzero zeroDraw 3 [∅, {1}, ∅] ⟨⟨0, 0⟩, ∅, 0⟩
      [1, 2, 3] ⟨⟨3, 3⟩, {3, 2}, 2⟩ (by decide) (by decide)).2.1⟩

end XRT
